import Mathlib

/-!
Verification of the storefront storage layer and the cart-to-order checkout
algorithm.  The development shallowly embeds the storage backends
(`MemStorage`, the relational adapter `PgStorage`, the document-store adapter
`MongoDbStorage`) and the HTTP handlers that compose Storage Port calls
(add-to-cart, checkout).  JavaScript `Map`s are embedded as insertion-ordered
association lists keyed by `Nat`; decimal prices are embedded as `ℚ`;
JavaScript numeric truthiness is modelled explicitly.  Effectful operations
are written in explicit state-passing style.
-/

namespace Shop

/-- Truthiness of a JavaScript number: a number is truthy iff it is nonzero
(we do not model `NaN`). -/
def jsTruthy (q : ℚ) : Bool := decide (q ≠ 0)

/-- `User` record (fields as produced by `createUser` and the registration
handler). -/
structure User where
  id : Nat
  username : String
  email : String
  password : String
  fullName : String
  address : String
  isAdmin : Bool
deriving DecidableEq

/-- Creation-time subset of `User` (`InsertUser`). -/
structure InsertUser where
  username : String
  email : String
  password : String
  fullName : String
  address : String
deriving DecidableEq

/-- `Category` record. -/
structure Category where
  id : Nat
  name : String
  slug : String
  imageUrl : String
deriving DecidableEq

/-- Creation-time subset of `Category`. -/
structure InsertCategory where
  name : String
  slug : String
  imageUrl : String
deriving DecidableEq

/-- `Product` record.  `salePrice` is nullable, embedded as `Option ℚ`. -/
structure Product where
  id : Nat
  name : String
  slug : String
  description : String
  price : ℚ
  imageUrl : String
  stock : Nat
  categoryId : Nat
  isOnSale : Bool
  salePrice : Option ℚ
  isNew : Bool
  rating : ℚ
  reviewCount : Nat
deriving DecidableEq

/-- Creation-time subset of `Product` (`rating`/`reviewCount` are assigned by
the store at creation). -/
structure InsertProduct where
  name : String
  slug : String
  description : String
  price : ℚ
  imageUrl : String
  stock : Nat
  categoryId : Nat
  isOnSale : Bool
  salePrice : Option ℚ
  isNew : Bool
deriving DecidableEq

/-- `Order` record.  `createdAt` is the timestamp assigned by the store,
embedded as a `Nat`. -/
structure Order where
  id : Nat
  userId : Nat
  total : ℚ
  status : String
  address : String
  createdAt : Nat
deriving DecidableEq

/-- Creation-time subset of `Order`. -/
structure InsertOrder where
  userId : Nat
  total : ℚ
  status : String
  address : String
deriving DecidableEq

/-- `OrderItem` record. -/
structure OrderItem where
  id : Nat
  orderId : Nat
  productId : Nat
  quantity : Nat
  price : ℚ
deriving DecidableEq

/-- Creation-time subset of `OrderItem`. -/
structure InsertOrderItem where
  orderId : Nat
  productId : Nat
  quantity : Nat
  price : ℚ
deriving DecidableEq

/-- `CartItem` record. -/
structure CartItem where
  id : Nat
  userId : Nat
  productId : Nat
  quantity : Nat
deriving DecidableEq

/-- Creation-time subset of `CartItem`. -/
structure InsertCartItem where
  userId : Nat
  productId : Nat
  quantity : Nat
deriving DecidableEq

/-!
Embedding of JavaScript `Map<number, T>` as an insertion-ordered association
list.  `Map.set` on a present key overwrites in place (keeping the original
insertion position); on an absent key it appends.  `Map.delete` removes the
entry with that key and reports whether it was present (a `Map` holds at most
one entry per key, so removal by filtering coincides with removing the single
entry).  `Map.values()` iterates in insertion order.
-/

/-- `Map.has`. -/
def mapHas {α : Type} (m : List (Nat × α)) (k : Nat) : Bool :=
  m.any (fun p => p.1 == k)

/-- `Map.get`. -/
def mapGet {α : Type} (m : List (Nat × α)) (k : Nat) : Option α :=
  (m.find? (fun p => p.1 == k)).map (fun p => p.2)

/-- `Map.set`. -/
def mapSet {α : Type} (m : List (Nat × α)) (k : Nat) (v : α) : List (Nat × α) :=
  if mapHas m k then m.map (fun p => if p.1 == k then (k, v) else p)
  else m ++ [(k, v)]

/-- `Map.delete`, returning the new map and whether the key was present. -/
def mapDelete {α : Type} (m : List (Nat × α)) (k : Nat) : List (Nat × α) × Bool :=
  (m.filter (fun p => p.1 != k), mapHas m k)

/-- `Array.from(map.values())`. -/
def mapValues {α : Type} (m : List (Nat × α)) : List α :=
  m.map (fun p => p.2)

/-- State of `MemStorage`: one `Map` and one id counter per entity
collection, exactly as in the class constructor. -/
structure MemStorage where
  users : List (Nat × User)
  categories : List (Nat × Category)
  products : List (Nat × Product)
  orders : List (Nat × Order)
  orderItems : List (Nat × OrderItem)
  cartItems : List (Nat × CartItem)
  userId : Nat
  categoryId : Nat
  productId : Nat
  orderId : Nat
  orderItemId : Nat
  cartItemId : Nat
deriving DecidableEq

/-- The `MemStorage` constructor state before `initSampleData` runs: empty
maps, every counter at 1.  (`initSampleData` then seeds categories, products
and one user through the ordinary `createX` operations modelled below, so all
theorems quantified over states cover the seeded store as well.) -/
def MemStorage.empty : MemStorage :=
  { users := [], categories := [], products := [], orders := [],
    orderItems := [], cartItems := [],
    userId := 1, categoryId := 1, productId := 1,
    orderId := 1, orderItemId := 1, cartItemId := 1 }

/-- `MemStorage.getUser`. -/
def MemStorage.getUser (s : MemStorage) (id : Nat) : Option User :=
  mapGet s.users id

/-- `MemStorage.getUserByUsername`. -/
def MemStorage.getUserByUsername (s : MemStorage) (username : String) : Option User :=
  (mapValues s.users).find? (fun user => user.username == username)

/-- `MemStorage.getUserByEmail`. -/
def MemStorage.getUserByEmail (s : MemStorage) (email : String) : Option User :=
  (mapValues s.users).find? (fun user => user.email == email)

/-- `MemStorage.createUser`: `const id = this.userId++`, records the user
with `isAdmin: false`. -/
def MemStorage.createUser (s : MemStorage) (user : InsertUser) : MemStorage × User :=
  let id := s.userId
  let newUser : User :=
    { id := id, username := user.username, email := user.email,
      password := user.password, fullName := user.fullName,
      address := user.address, isAdmin := false }
  ({ s with users := mapSet s.users id newUser, userId := id + 1 }, newUser)

/-- `MemStorage.getCategories`. -/
def MemStorage.getCategories (s : MemStorage) : List Category :=
  mapValues s.categories

/-- `MemStorage.getCategoryById`. -/
def MemStorage.getCategoryById (s : MemStorage) (id : Nat) : Option Category :=
  mapGet s.categories id

/-- `MemStorage.getCategoryBySlug`. -/
def MemStorage.getCategoryBySlug (s : MemStorage) (slug : String) : Option Category :=
  (mapValues s.categories).find? (fun category => category.slug == slug)

/-- `MemStorage.createCategory`. -/
def MemStorage.createCategory (s : MemStorage) (category : InsertCategory) :
    MemStorage × Category :=
  let id := s.categoryId
  let newCategory : Category :=
    { id := id, name := category.name, slug := category.slug,
      imageUrl := category.imageUrl }
  ({ s with categories := mapSet s.categories id newCategory, categoryId := id + 1 },
   newCategory)

/-- `MemStorage.getProducts`. -/
def MemStorage.getProducts (s : MemStorage) : List Product :=
  mapValues s.products

/-- `MemStorage.getProductById`. -/
def MemStorage.getProductById (s : MemStorage) (id : Nat) : Option Product :=
  mapGet s.products id

/-- `MemStorage.getProductBySlug`. -/
def MemStorage.getProductBySlug (s : MemStorage) (slug : String) : Option Product :=
  (mapValues s.products).find? (fun product => product.slug == slug)

/-- `MemStorage.getProductsByCategory`. -/
def MemStorage.getProductsByCategory (s : MemStorage) (categoryId : Nat) : List Product :=
  (mapValues s.products).filter (fun product => product.categoryId == categoryId)

/-- `MemStorage.getProductsByIds`: `ids.includes(product.id)`. -/
def MemStorage.getProductsByIds (s : MemStorage) (ids : List Nat) : List Product :=
  (mapValues s.products).filter (fun product => ids.contains product.id)

/-- `MemStorage.createProduct`.  The source draws
`Math.floor(Math.random() * 200) + 1` for `reviewCount`; the draw is passed
in explicitly as `r` (so `reviewCount = r % 200 + 1` ranges over 1..200) and
`rating` is the constant `4.5`. -/
def MemStorage.createProduct (s : MemStorage) (product : InsertProduct) (r : Nat) :
    MemStorage × Product :=
  let id := s.productId
  let newProduct : Product :=
    { id := id, name := product.name, slug := product.slug,
      description := product.description, price := product.price,
      imageUrl := product.imageUrl, stock := product.stock,
      categoryId := product.categoryId, isOnSale := product.isOnSale,
      salePrice := product.salePrice, isNew := product.isNew,
      rating := 9 / 2, reviewCount := r % 200 + 1 }
  ({ s with products := mapSet s.products id newProduct, productId := id + 1 },
   newProduct)

/-- `MemStorage.getOrders` (list by user). -/
def MemStorage.getOrders (s : MemStorage) (userId : Nat) : List Order :=
  (mapValues s.orders).filter (fun order => order.userId == userId)

/-- `MemStorage.getOrderById`. -/
def MemStorage.getOrderById (s : MemStorage) (id : Nat) : Option Order :=
  mapGet s.orders id

/-- `MemStorage.createOrder`: `createdAt` is assigned by the store
(`new Date()` is passed in as `now`). -/
def MemStorage.createOrder (s : MemStorage) (order : InsertOrder) (now : Nat) :
    MemStorage × Order :=
  let id := s.orderId
  let newOrder : Order :=
    { id := id, userId := order.userId, total := order.total,
      status := order.status, address := order.address, createdAt := now }
  ({ s with orders := mapSet s.orders id newOrder, orderId := id + 1 }, newOrder)

/-- `MemStorage.getOrderItems` (list by order). -/
def MemStorage.getOrderItems (s : MemStorage) (orderId : Nat) : List OrderItem :=
  (mapValues s.orderItems).filter (fun item => item.orderId == orderId)

/-- `MemStorage.createOrderItem`. -/
def MemStorage.createOrderItem (s : MemStorage) (orderItem : InsertOrderItem) :
    MemStorage × OrderItem :=
  let id := s.orderItemId
  let newOrderItem : OrderItem :=
    { id := id, orderId := orderItem.orderId, productId := orderItem.productId,
      quantity := orderItem.quantity, price := orderItem.price }
  ({ s with orderItems := mapSet s.orderItems id newOrderItem, orderItemId := id + 1 },
   newOrderItem)

/-- `MemStorage.getCartItems` (list by user). -/
def MemStorage.getCartItems (s : MemStorage) (userId : Nat) : List CartItem :=
  (mapValues s.cartItems).filter (fun item => item.userId == userId)

/-- `MemStorage.getCartItem` (get by user and product). -/
def MemStorage.getCartItem (s : MemStorage) (userId productId : Nat) : Option CartItem :=
  (mapValues s.cartItems).find?
    (fun item => item.userId == userId && item.productId == productId)

/-- `MemStorage.createCartItem`. -/
def MemStorage.createCartItem (s : MemStorage) (cartItem : InsertCartItem) :
    MemStorage × CartItem :=
  let id := s.cartItemId
  let newCartItem : CartItem :=
    { id := id, userId := cartItem.userId, productId := cartItem.productId,
      quantity := cartItem.quantity }
  ({ s with cartItems := mapSet s.cartItems id newCartItem, cartItemId := id + 1 },
   newCartItem)

/-- `MemStorage.updateCartItem`: update quantity, `undefined` when absent. -/
def MemStorage.updateCartItem (s : MemStorage) (id quantity : Nat) :
    MemStorage × Option CartItem :=
  match mapGet s.cartItems id with
  | none => (s, none)
  | some cartItem =>
    let updatedCartItem : CartItem := { cartItem with quantity := quantity }
    ({ s with cartItems := mapSet s.cartItems id updatedCartItem }, some updatedCartItem)

/-- `MemStorage.deleteCartItem`: `this.cartItems.delete(id)`. -/
def MemStorage.deleteCartItem (s : MemStorage) (id : Nat) : MemStorage × Bool :=
  let d := mapDelete s.cartItems id
  ({ s with cartItems := d.1 }, d.2)

/-- `MemStorage.clearCart`: collect the user's items, delete each by id,
return `true` unconditionally. -/
def MemStorage.clearCart (s : MemStorage) (userId : Nat) : MemStorage × Bool :=
  let cartItemsToRemove := (mapValues s.cartItems).filter (fun item => item.userId == userId)
  ({ s with
      cartItems := cartItemsToRemove.foldl (fun m item => (mapDelete m item.id).1) s.cartItems },
   true)

/-!  HTTP handlers composing Storage Port calls (routes file). -/

/-- The price snapshot expression shared by the GET /cart handler and the
POST /orders (checkout) handler:
`product.isOnSale && product.salePrice ? product.salePrice : product.price`.
By JavaScript truthiness a `null` or `0` sale price falls back to the list
price. -/
def effectivePrice (product : Product) : ℚ :=
  match product.salePrice with
  | some sp => if product.isOnSale && jsTruthy sp then sp else product.price
  | none => product.price

/-- The spec's wording of effective price, for refinement comparison only:
"a product's sale price if on sale and a sale price is set, otherwise its
list price" — i.e. the fallback happens only when `salePrice` is absent,
with no exception for a sale price of `0`. -/
def specEffectivePrice (product : Product) : ℚ :=
  match product.salePrice with
  | some sp => if product.isOnSale then sp else product.price
  | none => product.price

/-- `new Map(products.map(product => [product.id, product]))`. -/
def buildProductsMap (products : List Product) : List (Nat × Product) :=
  products.foldl (fun m product => mapSet m product.id product) []

/-- Outcome of the POST /cart (add-to-cart) handler. -/
inductive AddToCartResult where
  | productNotFound
  | updated (item : Option CartItem)
  | created (item : CartItem)
deriving DecidableEq

/-- POST /cart handler: check the product exists, then check-then-create —
`getCartItem(userId, productId)` first, `updateCartItem` on the existing
row, otherwise `createCartItem`. -/
def addToCart (s : MemStorage) (userId productId quantity : Nat) :
    MemStorage × AddToCartResult :=
  match s.getProductById productId with
  | none => (s, .productNotFound)
  | some _ =>
    match s.getCartItem userId productId with
    | some existingCartItem =>
      let u := s.updateCartItem existingCartItem.id (existingCartItem.quantity + quantity)
      (u.1, .updated u.2)
    | none =>
      let c := s.createCartItem
        { userId := userId, productId := productId, quantity := quantity }
      (c.1, .created c.2)

/-- Outcome of the POST /orders (checkout) handler. -/
inductive CheckoutResult where
  | cartEmpty
  | created (order : Order)
deriving DecidableEq

/-- The order-item materialization loop of the checkout handler: for each
cart line, look the product up in the products map; a line whose product
does not resolve is skipped (`if (!product) continue`), otherwise one
`OrderItem` is created with the line's quantity and the product's current
effective price. -/
def materializeOrderItems (productsMap : List (Nat × Product)) (orderId : Nat)
    (s : MemStorage) (cartItems : List CartItem) : MemStorage :=
  cartItems.foldl
    (fun st item =>
      match mapGet productsMap item.productId with
      | none => st
      | some product =>
        (st.createOrderItem
          { orderId := orderId, productId := item.productId,
            quantity := item.quantity, price := effectivePrice product }).1)
    s

/-- POST /orders (checkout) handler, in source order: create the `Order`
first; then fetch the cart; an empty cart returns the 400 "Cart is empty"
response; otherwise batch-fetch the referenced products, materialize order
items (skipping non-resolving lines), clear the cart, and return the
order. -/
def checkout (s : MemStorage) (userId : Nat) (total : ℚ) (address : String)
    (now : Nat) : MemStorage × CheckoutResult :=
  let c := s.createOrder
    { userId := userId, total := total, status := "pending", address := address } now
  let s1 := c.1
  let order := c.2
  let cartItems := s1.getCartItems userId
  if cartItems.isEmpty then (s1, .cartEmpty)
  else
    let productIds := cartItems.map (fun item => item.productId)
    let products := s1.getProductsByIds productIds
    let productsMap := buildProductsMap products
    let s2 := materializeOrderItems productsMap order.id s1 cartItems
    let s3 := (s2.clearCart userId).1
    (s3, .created order)

/-!  The relational adapter `PgStorage`, restricted to the operations the
claims are about.  Each table is a row list; the native serial column is the
per-table `Seq` counter (next value to assign); `insert ... returning`
appends the row and returns it; `select ... where id = _ limit 1` returns
the first matching row; `delete ... where` removes the matching rows and the
adapter then returns `true` unconditionally. -/
structure PgDb where
  users : List User
  categories : List Category
  products : List Product
  orders : List Order
  orderItems : List OrderItem
  cartItems : List CartItem
  usersSeq : Nat
  categoriesSeq : Nat
  productsSeq : Nat
  ordersSeq : Nat
  orderItemsSeq : Nat
  cartItemsSeq : Nat
deriving DecidableEq

/-- `PgStorage.getUser`. -/
def PgDb.getUser (db : PgDb) (id : Nat) : Option User :=
  db.users.find? (fun row => row.id == id)

/-- `PgStorage.createUser` (insert with `isAdmin: false`, returning). -/
def PgDb.createUser (db : PgDb) (user : InsertUser) : PgDb × User :=
  let id := db.usersSeq
  let row : User :=
    { id := id, username := user.username, email := user.email,
      password := user.password, fullName := user.fullName,
      address := user.address, isAdmin := false }
  ({ db with users := db.users ++ [row], usersSeq := id + 1 }, row)

/-- `PgStorage.getCategoryById`. -/
def PgDb.getCategoryById (db : PgDb) (id : Nat) : Option Category :=
  db.categories.find? (fun row => row.id == id)

/-- `PgStorage.createCategory`. -/
def PgDb.createCategory (db : PgDb) (category : InsertCategory) : PgDb × Category :=
  let id := db.categoriesSeq
  let row : Category :=
    { id := id, name := category.name, slug := category.slug,
      imageUrl := category.imageUrl }
  ({ db with categories := db.categories ++ [row], categoriesSeq := id + 1 }, row)

/-- `PgStorage.getProductById`. -/
def PgDb.getProductById (db : PgDb) (id : Nat) : Option Product :=
  db.products.find? (fun row => row.id == id)

/-- `PgStorage.createProduct` (`rating: 4.5`, random `reviewCount` passed in
as `r`). -/
def PgDb.createProduct (db : PgDb) (product : InsertProduct) (r : Nat) : PgDb × Product :=
  let id := db.productsSeq
  let row : Product :=
    { id := id, name := product.name, slug := product.slug,
      description := product.description, price := product.price,
      imageUrl := product.imageUrl, stock := product.stock,
      categoryId := product.categoryId, isOnSale := product.isOnSale,
      salePrice := product.salePrice, isNew := product.isNew,
      rating := 9 / 2, reviewCount := r % 200 + 1 }
  ({ db with products := db.products ++ [row], productsSeq := id + 1 }, row)

/-- `PgStorage.getOrderById`. -/
def PgDb.getOrderById (db : PgDb) (id : Nat) : Option Order :=
  db.orders.find? (fun row => row.id == id)

/-- `PgStorage.createOrder` (`createdAt` comes from the column default,
passed in as `now`). -/
def PgDb.createOrder (db : PgDb) (order : InsertOrder) (now : Nat) : PgDb × Order :=
  let id := db.ordersSeq
  let row : Order :=
    { id := id, userId := order.userId, total := order.total,
      status := order.status, address := order.address, createdAt := now }
  ({ db with orders := db.orders ++ [row], ordersSeq := id + 1 }, row)

/-- `PgStorage.getOrderItems`. -/
def PgDb.getOrderItems (db : PgDb) (orderId : Nat) : List OrderItem :=
  db.orderItems.filter (fun row => row.orderId == orderId)

/-- `PgStorage.createOrderItem`. -/
def PgDb.createOrderItem (db : PgDb) (orderItem : InsertOrderItem) : PgDb × OrderItem :=
  let id := db.orderItemsSeq
  let row : OrderItem :=
    { id := id, orderId := orderItem.orderId, productId := orderItem.productId,
      quantity := orderItem.quantity, price := orderItem.price }
  ({ db with orderItems := db.orderItems ++ [row], orderItemsSeq := id + 1 }, row)

/-- `PgStorage.getCartItems`. -/
def PgDb.getCartItems (db : PgDb) (userId : Nat) : List CartItem :=
  db.cartItems.filter (fun row => row.userId == userId)

/-- `PgStorage.createCartItem`. -/
def PgDb.createCartItem (db : PgDb) (cartItem : InsertCartItem) : PgDb × CartItem :=
  let id := db.cartItemsSeq
  let row : CartItem :=
    { id := id, userId := cartItem.userId, productId := cartItem.productId,
      quantity := cartItem.quantity }
  ({ db with cartItems := db.cartItems ++ [row], cartItemsSeq := id + 1 }, row)

/-- `PgStorage.deleteCartItem`: delete where `id`, then `return true`
regardless of whether a row matched. -/
def PgDb.deleteCartItem (db : PgDb) (id : Nat) : PgDb × Bool :=
  ({ db with cartItems := db.cartItems.filter (fun row => row.id != id) }, true)

/-- `PgStorage.clearCart`: delete where `userId`, then `return true`. -/
def PgDb.clearCart (db : PgDb) (userId : Nat) : PgDb × Bool :=
  ({ db with cartItems := db.cartItems.filter (fun row => row.userId != userId) }, true)

/-!  The document-store adapter `MongoDbStorage`.  Each collection is a
document list; `findOne` returns the first matching document; `insertOne`
appends; `deleteOne` removes the first matching document and reports
`deletedCount`; `deleteMany` removes all matching documents and reports
`deletedCount`; ids come from the explicit `counters` collection through
`getNextId`, a single atomic `findOneAndUpdate` with `$inc` and upsert. -/
structure MongoDb where
  users : List User
  categories : List Category
  products : List Product
  orders : List Order
  orderItems : List OrderItem
  cartItems : List CartItem
  counters : List (String × Nat)
deriving DecidableEq

/-- Current value of a counter document (`0` when the document does not
exist yet). -/
def counterValue (counters : List (String × Nat)) (collectionName : String) : Nat :=
  ((counters.find? (fun c => c.1 == collectionName)).map (fun c => c.2)).getD 0

/-- The atomic `findOneAndUpdate({_id\x7d, {$inc: {sequence_value: 1\x7d\x7d,
{upsert, returnDocument: after\x7d)` on the counters collection: one
indivisible increment-and-fetch step against the store. -/
def counterIncrementAndFetch (counters : List (String × Nat)) (collectionName : String) :
    List (String × Nat) × Nat :=
  match counters.find? (fun c => c.1 == collectionName) with
  | some c =>
    (counters.map (fun p => if p.1 == collectionName then (collectionName, p.2 + 1) else p),
     c.2 + 1)
  | none => (counters ++ [(collectionName, 1)], 1)

/-- `MongoDbStorage.getNextId`. -/
def MongoDb.getNextId (db : MongoDb) (collectionName : String) : MongoDb × Nat :=
  let u := counterIncrementAndFetch db.counters collectionName
  ({ db with counters := u.1 }, u.2)

/-- `MongoDbStorage.getUser`. -/
def MongoDb.getUser (db : MongoDb) (id : Nat) : Option User :=
  db.users.find? (fun doc => doc.id == id)

/-- `MongoDbStorage.createUser`. -/
def MongoDb.createUser (db : MongoDb) (user : InsertUser) : MongoDb × User :=
  let n := db.getNextId "users"
  let newUser : User :=
    { id := n.2, username := user.username, email := user.email,
      password := user.password, fullName := user.fullName,
      address := user.address, isAdmin := false }
  ({ n.1 with users := n.1.users ++ [newUser] }, newUser)

/-- `MongoDbStorage.getCategoryById`. -/
def MongoDb.getCategoryById (db : MongoDb) (id : Nat) : Option Category :=
  db.categories.find? (fun doc => doc.id == id)

/-- `MongoDbStorage.createCategory`. -/
def MongoDb.createCategory (db : MongoDb) (category : InsertCategory) :
    MongoDb × Category :=
  let n := db.getNextId "categories"
  let newCategory : Category :=
    { id := n.2, name := category.name, slug := category.slug,
      imageUrl := category.imageUrl }
  ({ n.1 with categories := n.1.categories ++ [newCategory] }, newCategory)

/-- `MongoDbStorage.getProductById`. -/
def MongoDb.getProductById (db : MongoDb) (id : Nat) : Option Product :=
  db.products.find? (fun doc => doc.id == id)

/-- `MongoDbStorage.createProduct`. -/
def MongoDb.createProduct (db : MongoDb) (product : InsertProduct) (r : Nat) :
    MongoDb × Product :=
  let n := db.getNextId "products"
  let newProduct : Product :=
    { id := n.2, name := product.name, slug := product.slug,
      description := product.description, price := product.price,
      imageUrl := product.imageUrl, stock := product.stock,
      categoryId := product.categoryId, isOnSale := product.isOnSale,
      salePrice := product.salePrice, isNew := product.isNew,
      rating := 9 / 2, reviewCount := r % 200 + 1 }
  ({ n.1 with products := n.1.products ++ [newProduct] }, newProduct)

/-- `MongoDbStorage.getOrderById`. -/
def MongoDb.getOrderById (db : MongoDb) (id : Nat) : Option Order :=
  db.orders.find? (fun doc => doc.id == id)

/-- `MongoDbStorage.createOrder`. -/
def MongoDb.createOrder (db : MongoDb) (order : InsertOrder) (now : Nat) :
    MongoDb × Order :=
  let n := db.getNextId "orders"
  let newOrder : Order :=
    { id := n.2, userId := order.userId, total := order.total,
      status := order.status, address := order.address, createdAt := now }
  ({ n.1 with orders := n.1.orders ++ [newOrder] }, newOrder)

/-- `MongoDbStorage.getOrderItems`. -/
def MongoDb.getOrderItems (db : MongoDb) (orderId : Nat) : List OrderItem :=
  db.orderItems.filter (fun doc => doc.orderId == orderId)

/-- `MongoDbStorage.createOrderItem`. -/
def MongoDb.createOrderItem (db : MongoDb) (orderItem : InsertOrderItem) :
    MongoDb × OrderItem :=
  let n := db.getNextId "orderItems"
  let newOrderItem : OrderItem :=
    { id := n.2, orderId := orderItem.orderId, productId := orderItem.productId,
      quantity := orderItem.quantity, price := orderItem.price }
  ({ n.1 with orderItems := n.1.orderItems ++ [newOrderItem] }, newOrderItem)

/-- `MongoDbStorage.getCartItems`. -/
def MongoDb.getCartItems (db : MongoDb) (userId : Nat) : List CartItem :=
  db.cartItems.filter (fun doc => doc.userId == userId)

/-- `MongoDbStorage.createCartItem`. -/
def MongoDb.createCartItem (db : MongoDb) (cartItem : InsertCartItem) :
    MongoDb × CartItem :=
  let n := db.getNextId "cartItems"
  let newCartItem : CartItem :=
    { id := n.2, userId := cartItem.userId, productId := cartItem.productId,
      quantity := cartItem.quantity }
  ({ n.1 with cartItems := n.1.cartItems ++ [newCartItem] }, newCartItem)

/-- `MongoDbStorage.deleteCartItem`: `deleteOne({id\x7d)`, result
`deletedCount > 0`. -/
def MongoDb.deleteCartItem (db : MongoDb) (id : Nat) : MongoDb × Bool :=
  ({ db with cartItems := db.cartItems.eraseP (fun doc => doc.id == id) },
   db.cartItems.any (fun doc => doc.id == id))

/-- `MongoDbStorage.clearCart`: `deleteMany({userId\x7d)`, result
`deletedCount > 0`. -/
def MongoDb.clearCart (db : MongoDb) (userId : Nat) : MongoDb × Bool :=
  ({ db with cartItems := db.cartItems.filter (fun doc => doc.userId != userId) },
   db.cartItems.any (fun doc => doc.userId == userId))

/-!  Well-formedness.  A JavaScript `Map` keyed by generator-assigned ids
always satisfies these properties by construction: keys are pairwise
distinct, each stored record carries its key as its `id` field, and every
key is below the collection's next-id counter. -/

/-- Well-formedness of one id-keyed `Map` relative to its id counter. -/
def mapWF {α : Type} (m : List (Nat × α)) (key : α → Nat) (counter : Nat) : Prop :=
  (m.map Prod.fst).Nodup ∧ (∀ p ∈ m, key p.2 = p.1) ∧ (∀ p ∈ m, p.1 < counter)

instance {α : Type} (m : List (Nat × α)) (key : α → Nat) (counter : Nat) :
    Decidable (mapWF m key counter) := by
  unfold mapWF; exact inferInstance

/-- Well-formedness of a `MemStorage` state: every collection's map is
well-formed relative to its counter. -/
def MemStorage.WF (s : MemStorage) : Prop :=
  mapWF s.users (fun u => u.id) s.userId ∧
  mapWF s.categories (fun c => c.id) s.categoryId ∧
  mapWF s.products (fun p => p.id) s.productId ∧
  mapWF s.orders (fun o => o.id) s.orderId ∧
  mapWF s.orderItems (fun i => i.id) s.orderItemId ∧
  mapWF s.cartItems (fun i => i.id) s.cartItemId

instance (s : MemStorage) : Decidable s.WF := by
  unfold MemStorage.WF; exact inferInstance

/-- Well-formedness of a `PgDb` state: every row's serial id is below the
table's next serial value (what the serial column guarantees). -/
def PgDb.WF (db : PgDb) : Prop :=
  (∀ row ∈ db.users, row.id < db.usersSeq) ∧
  (∀ row ∈ db.categories, row.id < db.categoriesSeq) ∧
  (∀ row ∈ db.products, row.id < db.productsSeq) ∧
  (∀ row ∈ db.orders, row.id < db.ordersSeq) ∧
  (∀ row ∈ db.orderItems, row.id < db.orderItemsSeq) ∧
  (∀ row ∈ db.cartItems, row.id < db.cartItemsSeq)

instance (db : PgDb) : Decidable db.WF := by
  unfold PgDb.WF; exact inferInstance

/-- Well-formedness of a `MongoDb` state: every document's id is at most the
current value of its collection's counter document (what allocation through
`getNextId` guarantees). -/
def MongoDb.WF (db : MongoDb) : Prop :=
  (∀ doc ∈ db.users, doc.id ≤ counterValue db.counters "users") ∧
  (∀ doc ∈ db.categories, doc.id ≤ counterValue db.counters "categories") ∧
  (∀ doc ∈ db.products, doc.id ≤ counterValue db.counters "products") ∧
  (∀ doc ∈ db.orders, doc.id ≤ counterValue db.counters "orders") ∧
  (∀ doc ∈ db.orderItems, doc.id ≤ counterValue db.counters "orderItems") ∧
  (∀ doc ∈ db.cartItems, doc.id ≤ counterValue db.counters "cartItems")

instance (db : MongoDb) : Decidable db.WF := by
  unfold MongoDb.WF; exact inferInstance

/-!  Operation sequences, for the id-generation and cart invariants. -/

/-- The operations that touch the in-memory cart-items collection: create,
delete-by-id, delete-all-for-user. -/
inductive CartOp where
  | create (payload : InsertCartItem)
  | remove (id : Nat)
  | clear (userId : Nat)

/-- Run a sequence of cart-collection operations on `MemStorage`, collecting
the ids issued by the create operations in order. -/
def runCartOps (s : MemStorage) : List CartOp → MemStorage × List Nat
  | [] => (s, [])
  | op :: rest =>
    match op with
    | .create payload =>
      let c := s.createCartItem payload
      let t := runCartOps c.1 rest
      (t.1, c.2.id :: t.2)
    | .remove id => runCartOps (s.deleteCartItem id).1 rest
    | .clear userId => runCartOps (s.clearCart userId).1 rest

/-- Number of create operations in a cart-operation sequence. -/
def countCreates (ops : List CartOp) : Nat :=
  ops.countP (fun op => match op with | .create _ => true | _ => false)

/-- Run a sequence of `createUser` calls, collecting the issued ids. -/
def runUserCreates (s : MemStorage) : List InsertUser → MemStorage × List Nat
  | [] => (s, [])
  | u :: rest =>
    let c := s.createUser u
    let t := runUserCreates c.1 rest
    (t.1, c.2.id :: t.2)

/-- Run a sequence of `createCategory` calls, collecting the issued ids. -/
def runCategoryCreates (s : MemStorage) : List InsertCategory → MemStorage × List Nat
  | [] => (s, [])
  | c0 :: rest =>
    let c := s.createCategory c0
    let t := runCategoryCreates c.1 rest
    (t.1, c.2.id :: t.2)

/-- Run a sequence of `createProduct` calls (payload with its random draw),
collecting the issued ids. -/
def runProductCreates (s : MemStorage) : List (InsertProduct × Nat) → MemStorage × List Nat
  | [] => (s, [])
  | p :: rest =>
    let c := s.createProduct p.1 p.2
    let t := runProductCreates c.1 rest
    (t.1, c.2.id :: t.2)

/-- Run a sequence of `createOrder` calls (payload with its timestamp),
collecting the issued ids. -/
def runOrderCreates (s : MemStorage) : List (InsertOrder × Nat) → MemStorage × List Nat
  | [] => (s, [])
  | o :: rest =>
    let c := s.createOrder o.1 o.2
    let t := runOrderCreates c.1 rest
    (t.1, c.2.id :: t.2)

/-- Run a sequence of `createOrderItem` calls, collecting the issued ids. -/
def runOrderItemCreates (s : MemStorage) : List InsertOrderItem → MemStorage × List Nat
  | [] => (s, [])
  | o :: rest =>
    let c := s.createOrderItem o
    let t := runOrderItemCreates c.1 rest
    (t.1, c.2.id :: t.2)

/-- Run a sequence of add-to-cart requests `(userId, productId, quantity)`
through the POST /cart handler. -/
def runAddToCart (s : MemStorage) : List (Nat × Nat × Nat) → MemStorage
  | [] => s
  | r :: rest => runAddToCart (addToCart s r.1 r.2.1 r.2.2).1 rest

/-- Run `n` successive `getNextId` allocations for one collection,
collecting the returned values.  Each allocation is a single atomic
increment-and-fetch against the store, so an arbitrary concurrent schedule
of `n` callers executes exactly this sequence in some order. -/
def runNextIds (db : MongoDb) (collectionName : String) : Nat → MongoDb × List Nat
  | 0 => (db, [])
  | n + 1 =>
    let a := db.getNextId collectionName
    let t := runNextIds a.1 collectionName n
    (t.1, a.2 :: t.2)

/-- At most one cart item per `(userId, productId)` pair. -/
def uniquePairs (s : MemStorage) : Prop :=
  (mapValues s.cartItems).Pairwise
    (fun a b => ¬(a.userId = b.userId ∧ a.productId = b.productId))

instance (s : MemStorage) : Decidable (uniquePairs s) := by
  unfold uniquePairs; exact inferInstance

/-!  Generic lemmas about the `Map` embedding. -/

theorem mapHas_eq_false_iff {α : Type} (m : List (Nat × α)) (k : Nat) :
    mapHas m k = false ↔ ∀ p ∈ m, p.1 ≠ k := by
  simp [mapHas, List.any_eq_false]

theorem mapHas_eq_true_iff {α : Type} (m : List (Nat × α)) (k : Nat) :
    mapHas m k = true ↔ ∃ p ∈ m, p.1 = k := by
  simp [mapHas, List.any_eq_true]

theorem mapHas_eq_false_of_lt {α : Type} {m : List (Nat × α)} {c : Nat}
    (h : ∀ p ∈ m, p.1 < c) : mapHas m c = false := by
  rw [mapHas_eq_false_iff]
  intro p hp
  exact Nat.ne_of_lt (h p hp)

theorem mapSet_fresh {α : Type} {m : List (Nat × α)} {k : Nat} (v : α)
    (h : mapHas m k = false) : mapSet m k v = m ++ [(k, v)] := by
  simp [mapSet, h]

theorem mapGet_eq_none_iff {α : Type} (m : List (Nat × α)) (k : Nat) :
    mapGet m k = none ↔ ∀ p ∈ m, p.1 ≠ k := by
  simp [mapGet, List.find?_eq_none]

theorem mapGet_append_fresh {α : Type} {m : List (Nat × α)} {k : Nat} (v : α)
    (h : mapHas m k = false) : mapGet (m ++ [(k, v)]) k = some v := by
  have hn : m.find? (fun p => p.1 == k) = none := by
    rw [List.find?_eq_none]
    intro p hp
    simp [(mapHas_eq_false_iff m k).mp h p hp]
  simp [mapGet, List.find?_append, hn]

theorem mapGet_replace {α : Type} (m : List (Nat × α)) (k : Nat) (v : α)
    (h : mapHas m k = true) :
    mapGet (m.map (fun p => if p.1 == k then (k, v) else p)) k = some v := by
  induction m with
  | nil => simp [mapHas] at h
  | cons p t ih =>
    by_cases hp : p.1 = k
    · have hb : (p.1 == k) = true := by simp [hp]
      simp only [List.map_cons, hb, if_true, mapGet]
      rw [List.find?_cons_of_pos _ (by simp)]
      rfl
    · have hb : (p.1 == k) = false := by simp [hp]
      have ht : mapHas t k = true := by
        simpa [mapHas, List.any_cons, hb] using h
      have hrec := ih ht
      simp only [List.map_cons, hb, Bool.false_eq_true, if_false, mapGet]
      rw [List.find?_cons_of_neg _ (by simp [hp])]
      exact hrec

theorem mapGet_mapSet_self {α : Type} (m : List (Nat × α)) (k : Nat) (v : α) :
    mapGet (mapSet m k v) k = some v := by
  by_cases h : mapHas m k = true
  · simp only [mapSet, h, if_true]
    exact mapGet_replace m k v h
  · have h' : mapHas m k = false := by simpa using h
    rw [mapSet_fresh v h']
    exact mapGet_append_fresh v h'

theorem nodup_keys_inj {α : Type} {m : List (Nat × α)}
    (h : (m.map Prod.fst).Nodup) {p q : Nat × α}
    (hp : p ∈ m) (hq : q ∈ m) (hk : p.1 = q.1) : p = q :=
  List.inj_on_of_nodup_map h hp hq hk

theorem mapGet_of_mem {α : Type} {m : List (Nat × α)}
    (hnd : (m.map Prod.fst).Nodup) {p : Nat × α} (hp : p ∈ m) :
    mapGet m p.1 = some p.2 := by
  have hsome : (m.find? (fun q => q.1 == p.1)).isSome = true := by
    rw [List.find?_isSome]
    exact ⟨p, hp, by simp⟩
  obtain ⟨q, hq⟩ := Option.isSome_iff_exists.mp hsome
  have hqm : q ∈ m := List.mem_of_find?_eq_some hq
  have hqk : q.1 = p.1 := by simpa using List.find?_some hq
  have : q = p := nodup_keys_inj hnd hqm hp hqk
  simp [mapGet, hq, this]

theorem mapValues_append {α : Type} (m₁ m₂ : List (Nat × α)) :
    mapValues (m₁ ++ m₂) = mapValues m₁ ++ mapValues m₂ := by
  simp [mapValues]

theorem mapValues_filter_snd {α : Type} (m : List (Nat × α)) (q : α → Bool) :
    mapValues (m.filter (fun p => q p.2)) = (mapValues m).filter q := by
  induction m with
  | nil => rfl
  | cons p t ih =>
    by_cases hq : q p.2
    · simp [mapValues, List.filter_cons, hq] at ih ⊢
      exact ih
    · simp [mapValues, List.filter_cons, hq] at ih ⊢
      exact ih

theorem find?_values_eq_mapGet {α : Type} {m : List (Nat × α)} {key : α → Nat}
    (hkey : ∀ p ∈ m, key p.2 = p.1) (i : Nat) :
    (mapValues m).find? (fun v => key v == i) = mapGet m i := by
  induction m with
  | nil => rfl
  | cons p t ih =>
    have hp : key p.2 = p.1 := hkey p (by simp)
    have ih' := ih (fun q hq => hkey q (by simp [hq]))
    by_cases hk : p.1 = i
    · simp [mapValues, mapGet, List.find?, hp, hk]
    · have h1 : (key p.2 == i) = false := by simp [hp, hk]
      have h2 : (p.1 == i) = false := by simp [hk]
      simpa [mapValues, mapGet, List.find?, h1, h2] using ih'

theorem values_key_map_eq_keys {α : Type} {m : List (Nat × α)} {key : α → Nat}
    (hkey : ∀ p ∈ m, key p.2 = p.1) :
    (mapValues m).map key = m.map Prod.fst := by
  simp only [mapValues, List.map_map]
  exact List.map_congr_left (fun p hp => hkey p hp)

theorem find?_filter_of_imp {α : Type} (l : List α) (p q : α → Bool)
    (h : ∀ a, p a = true → q a = true) :
    (l.filter q).find? p = l.find? p := by
  induction l with
  | nil => rfl
  | cons a t ih =>
    by_cases hq : q a = true
    · simp only [List.filter_cons, hq, if_true]
      by_cases hp : p a = true
      · rw [List.find?_cons_of_pos _ hp, List.find?_cons_of_pos _ hp]
      · rw [List.find?_cons_of_neg _ hp, List.find?_cons_of_neg _ hp]
        exact ih
    · have hp : p a = false := by
        cases hpa : p a with
        | false => rfl
        | true => exact absurd (h a hpa) hq
      have hq' : q a = false := by simpa using hq
      simp only [List.filter_cons, hq', Bool.false_eq_true, if_false]
      rw [ih, List.find?_cons_of_neg _ (by simp [hp])]

theorem find?_append_fresh {α : Type} (l : List α) (x : α) (f : α → Bool)
    (h : ∀ a ∈ l, f a = false) (hx : f x = true) :
    (l ++ [x]).find? f = some x := by
  have hn : l.find? f = none := by
    rw [List.find?_eq_none]
    intro a ha
    simp [h a ha]
  simp [List.find?_append, hn, List.find?, hx]

/-!  Lemmas about `clearCart`. -/

theorem foldl_mapDelete_eq_filter {α : Type} (key : α → Nat) (l : List α)
    (m : List (Nat × α)) :
    l.foldl (fun acc item => (mapDelete acc (key item)).1) m
      = m.filter (fun p => l.all (fun item => p.1 != key item)) := by
  induction l generalizing m with
  | nil => simp
  | cons i t ih =>
    rw [List.foldl_cons, ih]
    show List.filter _ ((mapDelete m (key i)).1) = _
    simp only [mapDelete, List.filter_filter]
    apply List.filter_congr
    intro p _
    simp [List.all_cons, Bool.and_comm]

theorem clearCart_cartItems (s : MemStorage) (u : Nat)
    (hnd : (s.cartItems.map Prod.fst).Nodup)
    (hkey : ∀ p ∈ s.cartItems, p.2.id = p.1) :
    ((s.clearCart u).1).cartItems
      = s.cartItems.filter (fun p => p.2.userId != u) := by
  show ((mapValues s.cartItems).filter (fun item => item.userId == u)).foldl
      (fun m item => (mapDelete m item.id).1) s.cartItems
      = s.cartItems.filter (fun p => p.2.userId != u)
  rw [foldl_mapDelete_eq_filter (fun i : CartItem => i.id)
    ((mapValues s.cartItems).filter (fun item => item.userId == u)) s.cartItems]
  apply List.filter_congr
  intro p hp
  by_cases hu : p.2.userId = u
  · have hmem : p.2 ∈ (mapValues s.cartItems).filter (fun item => item.userId == u) := by
      rw [List.mem_filter]
      exact ⟨List.mem_map_of_mem _ hp, by simp [hu]⟩
    have : ¬ ((mapValues s.cartItems).filter (fun item => item.userId == u)).all
        (fun item => p.1 != item.id) = true := by
      intro hall
      have := (List.all_eq_true.mp hall) p.2 hmem
      simp [hkey p hp] at this
    simp only [Bool.not_eq_true] at this
    simp [this, hu]
  · have : ((mapValues s.cartItems).filter (fun item => item.userId == u)).all
        (fun item => p.1 != item.id) = true := by
      rw [List.all_eq_true]
      intro item hitem
      rw [List.mem_filter] at hitem
      obtain ⟨hv, hiu⟩ := hitem
      obtain ⟨q, hq, hqi⟩ := List.mem_map.mp hv
      by_contra hne
      have hp1 : p.1 = item.id := by simpa using hne
      have hkq : q.1 = p.1 := by
        rw [← hkey q hq, hqi]
        exact hp1.symm
      have hqp : q = p := nodup_keys_inj hnd hq hp hkq
      apply hu
      have hiu' : item.userId = u := by simpa using hiu
      rw [← hqp, hqi]
      exact hiu'
    simp [this, hu]

/-!  Lemmas about `buildProductsMap` and product resolution. -/

theorem foldl_mapSet_fresh (ps : List Product) (acc : List (Nat × Product))
    (hnd : (ps.map (fun p => p.id)).Nodup)
    (hdisj : ∀ q ∈ acc, ∀ p ∈ ps, q.1 ≠ p.id) :
    ps.foldl (fun m product => mapSet m product.id product) acc
      = acc ++ ps.map (fun p => (p.id, p)) := by
  induction ps generalizing acc with
  | nil => simp
  | cons p t ih =>
    have hnd' : p.id ∉ t.map (fun x => x.id) ∧ (t.map (fun x => x.id)).Nodup := by
      have h0 := hnd
      simp only [List.map_cons, List.nodup_cons] at h0
      exact h0
    have hfresh : mapHas acc p.id = false := by
      rw [mapHas_eq_false_iff]
      intro q hq
      exact hdisj q hq p (by simp)
    have hdisj' : ∀ q ∈ acc ++ [(p.id, p)], ∀ r ∈ t, q.1 ≠ r.id := by
      intro q hq r hr
      rcases List.mem_append.mp hq with hq | hq
      · exact hdisj q hq r (List.mem_cons_of_mem _ hr)
      · have hqe : q = (p.id, p) := by simpa using hq
        subst hqe
        intro hcontra
        apply hnd'.1
        have h2 : p.id = r.id := hcontra
        rw [h2]
        exact List.mem_map_of_mem _ hr
    rw [List.foldl_cons, mapSet_fresh p hfresh, ih (acc ++ [(p.id, p)]) hnd'.2 hdisj']
    simp

theorem mapGet_buildProductsMap (ps : List Product)
    (hnd : (ps.map (fun p => p.id)).Nodup) (i : Nat) :
    mapGet (buildProductsMap ps) i = ps.find? (fun p => p.id == i) := by
  unfold buildProductsMap
  rw [foldl_mapSet_fresh ps [] hnd (by simp)]
  simp only [List.nil_append, mapGet, List.find?_map]
  have : ((fun p : Nat × Product => p.1 == i) ∘ fun p : Product => (p.id, p))
      = fun p : Product => p.id == i := rfl
  rw [this]
  cases ps.find? (fun p => p.id == i) <;> rfl

theorem resolve_eq_getProductById (s : MemStorage) (ids : List Nat)
    (hnd : (s.products.map Prod.fst).Nodup)
    (hkey : ∀ p ∈ s.products, p.2.id = p.1)
    (i : Nat) (hi : ids.contains i = true) :
    mapGet (buildProductsMap (s.getProductsByIds ids)) i = s.getProductById i := by
  have hvnd : ((s.getProductsByIds ids).map (fun p => p.id)).Nodup := by
    have h1 : ((mapValues s.products).map (fun p => p.id)).Nodup := by
      rw [values_key_map_eq_keys hkey]
      exact hnd
    exact List.Sublist.nodup (List.Sublist.map _ (List.filter_sublist _)) h1
  rw [mapGet_buildProductsMap _ hvnd i]
  show ((mapValues s.products).filter (fun p => ids.contains p.id)).find?
      (fun p => p.id == i) = s.getProductById i
  rw [find?_filter_of_imp]
  · exact find?_values_eq_mapGet hkey i
  · intro a ha
    have : a.id = i := by simpa using ha
    rw [this]
    exact hi

/-!  Lemmas about the order-item materialization loop. -/

/-- Projection of an `OrderItem` that forgets its generated id:
`(orderId, productId, quantity, price)`. -/
def OrderItem.body (i : OrderItem) : Nat × Nat × Nat × ℚ :=
  (i.orderId, i.productId, i.quantity, i.price)

theorem materialize_cons (pm : List (Nat × Product)) (oid : Nat) (s : MemStorage)
    (i : CartItem) (t : List CartItem) :
    materializeOrderItems pm oid s (i :: t)
      = materializeOrderItems pm oid
          (match mapGet pm i.productId with
           | none => s
           | some product =>
             (s.createOrderItem
               { orderId := oid, productId := i.productId,
                 quantity := i.quantity, price := effectivePrice product }).1) t := rfl

theorem materialize_frame (pm : List (Nat × Product)) (oid : Nat)
    (l : List CartItem) (s : MemStorage) :
    (materializeOrderItems pm oid s l).users = s.users ∧
    (materializeOrderItems pm oid s l).categories = s.categories ∧
    (materializeOrderItems pm oid s l).products = s.products ∧
    (materializeOrderItems pm oid s l).orders = s.orders ∧
    (materializeOrderItems pm oid s l).cartItems = s.cartItems ∧
    (materializeOrderItems pm oid s l).userId = s.userId ∧
    (materializeOrderItems pm oid s l).categoryId = s.categoryId ∧
    (materializeOrderItems pm oid s l).productId = s.productId ∧
    (materializeOrderItems pm oid s l).orderId = s.orderId ∧
    (materializeOrderItems pm oid s l).cartItemId = s.cartItemId := by
  induction l generalizing s with
  | nil => exact ⟨rfl, rfl, rfl, rfl, rfl, rfl, rfl, rfl, rfl, rfl⟩
  | cons i t ih =>
    rw [materialize_cons]
    cases hg : mapGet pm i.productId with
    | none => simpa using ih s
    | some product => simpa using ih (s.createOrderItem _).1

theorem materialize_orderItems_spec (pm : List (Nat × Product)) (oid : Nat)
    (l : List CartItem) (s : MemStorage)
    (h : ∀ p ∈ s.orderItems, p.1 < s.orderItemId) :
    (mapValues (materializeOrderItems pm oid s l).orderItems).map OrderItem.body
      = (mapValues s.orderItems).map OrderItem.body
        ++ l.filterMap (fun item => (mapGet pm item.productId).map
            (fun product =>
              (oid, item.productId, item.quantity, effectivePrice product))) := by
  induction l generalizing s with
  | nil => simp [materializeOrderItems]
  | cons i t ih =>
    rw [materialize_cons]
    cases hg : mapGet pm i.productId with
    | none =>
      simp only [List.filterMap_cons, hg, Option.map_none]
      exact ih s h
    | some product =>
      simp only []
      set newItem : OrderItem :=
        { id := s.orderItemId, orderId := oid, productId := i.productId,
          quantity := i.quantity, price := effectivePrice product } with hni
      have hfresh : mapHas s.orderItems s.orderItemId = false :=
        mapHas_eq_false_of_lt h
      have horder : ((s.createOrderItem
          { orderId := oid, productId := i.productId,
            quantity := i.quantity, price := effectivePrice product }).1).orderItems
          = s.orderItems ++ [(s.orderItemId, newItem)] := by
        show mapSet s.orderItems s.orderItemId newItem = _
        exact mapSet_fresh newItem hfresh
      have hctr : ((s.createOrderItem
          { orderId := oid, productId := i.productId,
            quantity := i.quantity, price := effectivePrice product }).1).orderItemId
          = s.orderItemId + 1 := rfl
      have h' : ∀ p ∈ ((s.createOrderItem
          { orderId := oid, productId := i.productId,
            quantity := i.quantity, price := effectivePrice product }).1).orderItems,
          p.1 < ((s.createOrderItem
          { orderId := oid, productId := i.productId,
            quantity := i.quantity, price := effectivePrice product }).1).orderItemId := by
        rw [horder, hctr]
        intro p hp
        rcases List.mem_append.mp hp with hp | hp
        · exact Nat.lt_succ_of_lt (h p hp)
        · have : p = (s.orderItemId, newItem) := by simpa using hp
          rw [this]
          exact Nat.lt_succ_self _
      rw [ih _ h', horder, mapValues_append]
      simp only [List.filterMap_cons, hg, Option.map_some]
      simp [mapValues, OrderItem.body]

/-!  Lemmas about the counters collection of the document store. -/

theorem counterIncrementAndFetch_val (cs : List (String × Nat)) (name : String) :
    (counterIncrementAndFetch cs name).2 = counterValue cs name + 1 := by
  unfold counterIncrementAndFetch counterValue
  cases h : cs.find? (fun c => c.1 == name) with
  | none => simp [h]
  | some c => simp [h]

theorem counterValue_increment (cs : List (String × Nat)) (name : String) :
    counterValue (counterIncrementAndFetch cs name).1 name
      = counterValue cs name + 1 := by
  unfold counterIncrementAndFetch
  cases h : cs.find? (fun c => c.1 == name) with
  | none =>
    have h0 : counterValue cs name = 0 := by simp [counterValue, h]
    simp [counterValue, List.find?_append, h, List.find?, h0]
  | some c =>
    have hc : c.1 = name := by simpa using List.find?_some h
    have hfeq : ((fun p : String × Nat => p.1 == name)
          ∘ fun p : String × Nat => if p.1 = name then (name, p.2 + 1) else p)
        = fun p : String × Nat => p.1 == name := by
      funext p
      by_cases hp : p.1 = name <;> simp [hp]
    simp [counterValue, List.find?_map, hfeq, h, hc]

theorem counterValue_stable (cs : List (String × Nat)) (name other : String)
    (hne : other ≠ name) :
    counterValue (counterIncrementAndFetch cs name).1 other
      = counterValue cs other := by
  unfold counterIncrementAndFetch
  cases h : cs.find? (fun c => c.1 == name) with
  | none =>
    have hn : ((name : String) == other) = false := by
      simp [BEq.comm]
      exact fun hcontra => hne hcontra.symm
    simp [counterValue, List.find?_append, List.find?, hn]
  | some c =>
    have hfeq : ((fun p : String × Nat => p.1 == other)
          ∘ fun p : String × Nat => if p.1 = name then (name, p.2 + 1) else p)
        = fun p : String × Nat => p.1 == other := by
      funext p
      by_cases hp : p.1 = name
      · have hno : (name == other) = false := by
          simp
          exact fun hcontra => hne hcontra.symm
        simp [hp, hno]
      · simp [hp]
    cases h2 : cs.find? (fun c => c.1 == other) with
    | none => simp [counterValue, List.find?_map, hfeq, h2]
    | some d =>
      have hd : d.1 = other := by simpa using List.find?_some h2
      have hdn : ¬ d.1 = name := by
        rw [hd]
        exact hne
      simp [counterValue, List.find?_map, hfeq, h2, hdn]

theorem chain'_consecutive_range' (a n : Nat) :
    List.Chain' (fun x y => y = x + 1) (List.range' a n) := by
  induction n generalizing a with
  | zero => simp
  | succ m ih =>
    rw [List.range'_succ]
    cases m with
    | zero => simp
    | succ k =>
      rw [List.range'_succ, List.chain'_cons]
      refine ⟨rfl, ?_⟩
      rw [← List.range'_succ]
      exact ih (a + 1)

/-!  The checkout engine: one characterization of the non-empty-cart run of
the POST /orders handler, consumed by the individual claim theorems. -/

theorem checkout_engine (s : MemStorage) (u : Nat) (total : ℚ) (address : String)
    (now : Nat) (hWF : s.WF) (hne : ¬ s.getCartItems u = []) :
    (checkout s u total address now).2 = CheckoutResult.created
      { id := s.orderId, userId := u, total := total, status := "pending",
        address := address, createdAt := now } ∧
    mapValues (checkout s u total address now).1.orders
      = mapValues s.orders
        ++ [{ id := s.orderId, userId := u, total := total, status := "pending",
              address := address, createdAt := now }] ∧
    (mapValues (checkout s u total address now).1.orderItems).map OrderItem.body
      = (mapValues s.orderItems).map OrderItem.body
        ++ (s.getCartItems u).filterMap (fun item =>
            (s.getProductById item.productId).map (fun product =>
              (s.orderId, item.productId, item.quantity, effectivePrice product))) ∧
    (checkout s u total address now).1.getCartItems u = [] ∧
    (∀ v, v ≠ u → (checkout s u total address now).1.getCartItems v = s.getCartItems v) ∧
    (checkout s u total address now).1.cartItems
      = s.cartItems.filter (fun p => p.2.userId != u) ∧
    (checkout s u total address now).1.users = s.users ∧
    (checkout s u total address now).1.categories = s.categories ∧
    (checkout s u total address now).1.products = s.products := by
  obtain ⟨hWFu, hWFc, hWFp, hWFo, hWFoi, hWFci⟩ := hWF
  have hie : (s.getCartItems u).isEmpty = false := by
    cases hcl : s.getCartItems u with
    | nil => exact absurd hcl hne
    | cons a l => rfl
  set ins : InsertOrder :=
    { userId := u, total := total, status := "pending", address := address } with hins
  set o : Order :=
    { id := s.orderId, userId := u, total := total, status := "pending",
      address := address, createdAt := now } with ho
  set s1 : MemStorage := (s.createOrder ins now).1 with hs1
  set pm : List (Nat × Product) := buildProductsMap
    (s.getProductsByIds ((s.getCartItems u).map (fun item => item.productId))) with hpm
  set s2 : MemStorage := materializeOrderItems pm s.orderId s1 (s.getCartItems u) with hs2
  set s3 : MemStorage := (s2.clearCart u).1 with hs3
  have hck : checkout s u total address now = (s3, CheckoutResult.created o) := by
    show (if (s.getCartItems u).isEmpty = true
          then (s1, CheckoutResult.cartEmpty)
          else (s3, CheckoutResult.created o))
        = (s3, CheckoutResult.created o)
    rw [hie]
    simp
  have hframe := materialize_frame pm s.orderId (s.getCartItems u) s1
  -- cart-items content carried through materialization
  have hci2 : s2.cartItems = s.cartItems := hframe.2.2.2.2.1
  have hci2nd : (s2.cartItems.map Prod.fst).Nodup := by
    rw [hci2]; exact hWFci.1
  have hci2key : ∀ p ∈ s2.cartItems, p.2.id = p.1 := by
    rw [hci2]; exact hWFci.2.1
  have hclear : s3.cartItems = s.cartItems.filter (fun p => p.2.userId != u) := by
    rw [hs3, clearCart_cartItems s2 u hci2nd hci2key, hci2]
  refine ⟨by rw [hck], ?_, ?_, ?_, ?_, ?_, ?_, ?_, ?_⟩
  · -- orders: exactly the new order is appended
    rw [hck]
    show mapValues s3.orders = _
    have h3o : s3.orders = s2.orders := rfl
    have h2o : s2.orders = s1.orders := hframe.2.2.2.1
    have h1o : s1.orders = mapSet s.orders s.orderId o := rfl
    rw [h3o, h2o, h1o, mapSet_fresh o (mapHas_eq_false_of_lt hWFo.2.2), mapValues_append]
    rfl
  · -- order items: one per resolving cart line, with the snapshot price
    rw [hck]
    have hbound : ∀ p ∈ s1.orderItems, p.1 < s1.orderItemId := hWFoi.2.2
    have hspec := materialize_orderItems_spec pm s.orderId (s.getCartItems u) s1 hbound
    show (mapValues (materializeOrderItems pm s.orderId s1 (s.getCartItems u)).orderItems).map
          OrderItem.body
        = (mapValues s.orderItems).map OrderItem.body
          ++ (s.getCartItems u).filterMap (fun item =>
              (s.getProductById item.productId).map (fun product =>
                (s.orderId, item.productId, item.quantity, effectivePrice product)))
    rw [hspec, show mapValues s1.orderItems = mapValues s.orderItems from rfl]
    congr 1
    apply List.filterMap_congr
    intro item hitem
    have hres : mapGet pm item.productId = s.getProductById item.productId := by
      rw [hpm]
      apply resolve_eq_getProductById s _ hWFp.1 hWFp.2.1
      simp only [List.contains_iff_exists_mem_beq]
      exact ⟨item.productId, List.mem_map_of_mem _ hitem, by simp⟩
    rw [hres]
  · -- the user's cart is left empty
    rw [hck]
    show (mapValues s3.cartItems).filter (fun item => item.userId == u) = []
    rw [hclear, mapValues_filter_snd s.cartItems (fun x : CartItem => x.userId != u),
      List.filter_filter, List.filter_eq_nil_iff]
    intro a _
    by_cases ha : a.userId = u <;> simp [ha]
  · -- other users' cart listings unchanged
    intro v hv
    rw [hck]
    show (mapValues s3.cartItems).filter (fun item => item.userId == v)
        = s.getCartItems v
    rw [hclear, mapValues_filter_snd s.cartItems (fun x : CartItem => x.userId != u),
      List.filter_filter]
    apply List.filter_congr
    intro a _
    by_cases ha : a.userId = v
    · have hau : a.userId ≠ u := by rw [ha]; exact hv
      simp [ha, hau, hv]
    · simp [ha]
  · rw [hck]; exact hclear
  · rw [hck]
    show s3.users = s.users
    have : s2.users = s1.users := hframe.1
    rw [show s3.users = s2.users from rfl, this]
    rfl
  · rw [hck]
    show s3.categories = s.categories
    have : s2.categories = s1.categories := hframe.2.1
    rw [show s3.categories = s2.categories from rfl, this]
    rfl
  · rw [hck]
    show s3.products = s.products
    have : s2.products = s1.products := hframe.2.2.1
    rw [show s3.products = s2.products from rfl, this]
    rfl

/-!  Further helper lemmas for the remaining claims. -/

theorem length_filterMap_map {α β γ : Type} (l : List α) (f : α → Option β)
    (g : α → β → γ) :
    (l.filterMap (fun a => (f a).map (g a))).length
      = (l.filter (fun a => (f a).isSome)).length := by
  induction l with
  | nil => rfl
  | cons a t ih =>
    cases hf : f a <;> simp [List.filterMap_cons, List.filter_cons, hf, ih]

theorem any_values_key {α : Type} {m : List (Nat × α)} {key : α → Nat}
    (hkey : ∀ p ∈ m, key p.2 = p.1) (i : Nat) :
    (mapValues m).any (fun v => key v == i) = m.any (fun p => p.1 == i) := by
  induction m with
  | nil => rfl
  | cons p t ih =>
    have hp := hkey p (by simp)
    simp only [mapValues, List.map_cons, List.any_cons]
    rw [hp]
    congr 1
    exact ih (fun q hq => hkey q (by simp [hq]))

theorem mapGet_some_key {α : Type} {m : List (Nat × α)} {k : Nat} {v : α}
    {key : α → Nat} (hkey : ∀ p ∈ m, key p.2 = p.1) (h : mapGet m k = some v) :
    key v = k := by
  unfold mapGet at h
  cases hf : m.find? (fun p => p.1 == k) with
  | none => rw [hf] at h; simp at h
  | some e =>
    rw [hf] at h
    have he2 : e.2 = v := by simpa using h
    have he : e ∈ m := List.mem_of_find?_eq_some hf
    have hek : e.1 = k := by simpa using List.find?_some hf
    rw [← he2, hkey e he, hek]

theorem mapHas_of_mapGet_some {α : Type} {m : List (Nat × α)} {k : Nat} {v : α}
    (h : mapGet m k = some v) : mapHas m k = true := by
  unfold mapGet at h
  cases hf : m.find? (fun p => p.1 == k) with
  | none => rw [hf] at h; simp at h
  | some e =>
    rw [mapHas_eq_true_iff]
    exact ⟨e, List.mem_of_find?_eq_some hf, by simpa using List.find?_some hf⟩

theorem mapSet_keys_of_has {α : Type} (m : List (Nat × α)) (k : Nat) (v : α)
    (h : mapHas m k = true) :
    (mapSet m k v).map Prod.fst = m.map Prod.fst := by
  simp only [mapSet, h, if_true, List.map_map]
  apply List.map_congr_left
  intro p _
  by_cases hp : p.1 = k <;> simp [hp]

theorem mem_mapSet_of_has {α : Type} {m : List (Nat × α)} {k : Nat} {v : α}
    (h : mapHas m k = true) {q : Nat × α} (hq : q ∈ mapSet m k v) :
    ∃ p ∈ m, q = (if p.1 == k then (k, v) else p) := by
  simp only [mapSet, h, if_true] at hq
  obtain ⟨p, hp, hpq⟩ := List.mem_map.mp hq
  exact ⟨p, hp, hpq.symm⟩

theorem pairwise_values_mapSet_update (m : List (Nat × CartItem)) (k : Nat)
    (cartItem : CartItem) (qty : Nat)
    (hnd : (m.map Prod.fst).Nodup)
    (hgot : mapGet m k = some cartItem)
    (hP : (mapValues m).Pairwise
      (fun a b => ¬(a.userId = b.userId ∧ a.productId = b.productId))) :
    (mapValues (mapSet m k { cartItem with quantity := qty })).Pairwise
      (fun a b => ¬(a.userId = b.userId ∧ a.productId = b.productId)) := by
  have hhas : mapHas m k = true := mapHas_of_mapGet_some hgot
  have hfix : ∀ c ∈ m,
      ((fun p : Nat × CartItem =>
          if p.1 == k then (k, { cartItem with quantity := qty }) else p) c).2.userId
        = c.2.userId ∧
      ((fun p : Nat × CartItem =>
          if p.1 == k then (k, { cartItem with quantity := qty }) else p) c).2.productId
        = c.2.productId := by
    intro c hc
    by_cases hck : c.1 = k
    · have hg2 : mapGet m k = some c.2 := by
        have hmm := mapGet_of_mem hnd hc
        rwa [hck] at hmm
      have hc2 : cartItem = c.2 := by
        rw [hg2] at hgot
        exact (Option.some.inj hgot).symm
      rw [← hc2]
      simp [hck]
    · simp [hck]
  simp only [mapSet, hhas, if_true, mapValues, List.map_map]
  rw [List.pairwise_map]
  rw [mapValues, List.pairwise_map] at hP
  refine List.Pairwise.imp_of_mem ?_ hP
  intro a b ha hb hR
  obtain ⟨hu1, hp1⟩ := hfix a ha
  obtain ⟨hu2, hp2⟩ := hfix b hb
  intro hcontra
  apply hR
  constructor
  · rw [← hu1, ← hu2]
    exact hcontra.1
  · rw [← hp1, ← hp2]
    exact hcontra.2

theorem addToCart_preserves (s : MemStorage) (u p q : Nat)
    (hWF : mapWF s.cartItems (fun i => i.id) s.cartItemId)
    (hU : uniquePairs s) :
    mapWF (addToCart s u p q).1.cartItems (fun i => i.id)
      (addToCart s u p q).1.cartItemId ∧
    uniquePairs (addToCart s u p q).1 := by
  obtain ⟨hnd, hkey, hbound⟩ := hWF
  unfold addToCart
  cases hg : s.getProductById p with
  | none => exact ⟨⟨hnd, hkey, hbound⟩, hU⟩
  | some product =>
    cases hci : s.getCartItem u p with
    | some existing =>
      simp only []
      unfold MemStorage.updateCartItem
      cases hgot : mapGet s.cartItems existing.id with
      | none => exact ⟨⟨hnd, hkey, hbound⟩, hU⟩
      | some cartItem =>
        simp only []
        have hhas : mapHas s.cartItems existing.id = true := mapHas_of_mapGet_some hgot
        have hkeys := mapSet_keys_of_has s.cartItems existing.id
          ({ cartItem with quantity := existing.quantity + q }) hhas
        refine ⟨⟨?_, ?_, ?_⟩, ?_⟩
        · rw [hkeys]; exact hnd
        · intro pr hpr
          obtain ⟨orig, horig, hpr2⟩ := mem_mapSet_of_has hhas hpr
          by_cases hok : orig.1 = existing.id
          · have hpr3 : pr = (existing.id, { cartItem with quantity := existing.quantity + q }) := by
              rw [hpr2]; simp [hok]
            rw [hpr3]
            show cartItem.id = existing.id
            exact mapGet_some_key hkey hgot
          · have hpr3 : pr = orig := by rw [hpr2]; simp [hok]
            rw [hpr3]
            exact hkey orig horig
        · intro pr hpr
          obtain ⟨orig, horig, hpr2⟩ := mem_mapSet_of_has hhas hpr
          have hk1 : pr.1 = orig.1 := by
            rw [hpr2]
            by_cases hok : orig.1 = existing.id <;> simp [hok]
          rw [hk1]
          exact hbound orig horig
        · show (mapValues (mapSet s.cartItems existing.id
              { cartItem with quantity := existing.quantity + q })).Pairwise _
          exact pairwise_values_mapSet_update s.cartItems existing.id cartItem
            (existing.quantity + q) hnd hgot hU
    | none =>
      have hfresh : mapHas s.cartItems s.cartItemId = false :=
        mapHas_eq_false_of_lt hbound
      set newItem : CartItem :=
        { id := s.cartItemId, userId := u, productId := p, quantity := q } with hnew
      have happ : mapSet s.cartItems s.cartItemId newItem
          = s.cartItems ++ [(s.cartItemId, newItem)] := mapSet_fresh newItem hfresh
      refine ⟨⟨?_, ?_, ?_⟩, ?_⟩
      · show ((mapSet s.cartItems s.cartItemId newItem).map Prod.fst).Nodup
        rw [happ, List.map_append, List.nodup_append]
        refine ⟨hnd, by simp, ?_⟩
        intro a ha hb
        have hab : a = s.cartItemId := by simpa using hb
        obtain ⟨pr, hpr, hpra⟩ := List.mem_map.mp ha
        rw [← hpra] at hab
        exact absurd hab (Nat.ne_of_lt (hbound pr hpr))
      · intro pr hpr
        show pr.2.id = pr.1
        have hpr' : pr ∈ mapSet s.cartItems s.cartItemId newItem := hpr
        rw [happ] at hpr'
        rcases List.mem_append.mp hpr' with hpr2 | hpr2
        · exact hkey pr hpr2
        · have hpre : pr = (s.cartItemId, newItem) := by simpa using hpr2
          rw [hpre]
      · intro pr hpr
        show pr.1 < s.cartItemId + 1
        have hpr' : pr ∈ mapSet s.cartItems s.cartItemId newItem := hpr
        rw [happ] at hpr'
        rcases List.mem_append.mp hpr' with hpr2 | hpr2
        · exact Nat.lt_succ_of_lt (hbound pr hpr2)
        · have hpre : pr = (s.cartItemId, newItem) := by simpa using hpr2
          rw [hpre]
          exact Nat.lt_succ_self _
      · show (mapValues (mapSet s.cartItems s.cartItemId newItem)).Pairwise
          (fun a b => ¬(a.userId = b.userId ∧ a.productId = b.productId))
        rw [happ, mapValues_append, List.pairwise_append]
        refine ⟨hU, by simp [mapValues], ?_⟩
        intro a ha b hb
        have hb2 : b = newItem := by simpa [mapValues] using hb
        rw [hb2]
        intro hcontra
        have hfind : ∀ v ∈ mapValues s.cartItems,
            ¬(v.userId == u && v.productId == p) = true := by
          have h0 := hci
          unfold MemStorage.getCartItem at h0
          exact List.find?_eq_none.mp h0
        exact hfind a ha (by simp [hcontra.1, hcontra.2])

theorem runAddToCart_invariant (reqs : List (Nat × Nat × Nat)) (s : MemStorage)
    (hWF : mapWF s.cartItems (fun i => i.id) s.cartItemId) (hU : uniquePairs s) :
    uniquePairs (runAddToCart s reqs) := by
  induction reqs generalizing s with
  | nil => exact hU
  | cons r rest ih =>
    obtain ⟨hWF', hU'⟩ := addToCart_preserves s r.1 r.2.1 r.2.2 hWF hU
    exact ih _ hWF' hU'

theorem getCartItem_after_create (s : MemStorage) (u p q : Nat)
    (hbound : ∀ pr ∈ s.cartItems, pr.1 < s.cartItemId)
    (hnone : s.getCartItem u p = none) :
    ((s.createCartItem { userId := u, productId := p, quantity := q }).1).getCartItem u p
      = some (s.createCartItem { userId := u, productId := p, quantity := q }).2 := by
  show (mapValues (mapSet s.cartItems s.cartItemId
      { id := s.cartItemId, userId := u, productId := p, quantity := q })).find?
        (fun item => item.userId == u && item.productId == p)
      = some { id := s.cartItemId, userId := u, productId := p, quantity := q }
  rw [mapSet_fresh _ (mapHas_eq_false_of_lt hbound), mapValues_append]
  apply find?_append_fresh
  · intro a ha
    have hfind := List.find?_eq_none.mp hnone
    have := hfind a ha
    simpa using this
  · simp

/-!  Identifier sequences issued by the in-memory create operations. -/

theorem runCartOps_ids (ops : List CartOp) (s : MemStorage) :
    (runCartOps s ops).2 = List.range' s.cartItemId (countCreates ops) := by
  induction ops generalizing s with
  | nil => simp [runCartOps, countCreates]
  | cons op rest ih =>
    cases op with
    | create payload =>
      show (s.createCartItem payload).2.id
          :: (runCartOps (s.createCartItem payload).1 rest).2
          = List.range' s.cartItemId (countCreates (CartOp.create payload :: rest))
      rw [ih]
      have hc : countCreates (CartOp.create payload :: rest) = countCreates rest + 1 := by
        simp [countCreates, List.countP_cons]
      rw [hc, List.range'_succ]
      rfl
    | remove id =>
      show (runCartOps (s.deleteCartItem id).1 rest).2 = _
      rw [ih]
      have hc : countCreates (CartOp.remove id :: rest) = countCreates rest := by
        simp [countCreates, List.countP_cons]
      rw [hc]
      rfl
    | clear userId =>
      show (runCartOps (s.clearCart userId).1 rest).2 = _
      rw [ih]
      have hc : countCreates (CartOp.clear userId :: rest) = countCreates rest := by
        simp [countCreates, List.countP_cons]
      rw [hc]
      rfl

theorem runUserCreates_ids (us : List InsertUser) (s : MemStorage) :
    (runUserCreates s us).2 = List.range' s.userId us.length := by
  induction us generalizing s with
  | nil => rfl
  | cons u0 rest ih =>
    show (s.createUser u0).2.id :: (runUserCreates (s.createUser u0).1 rest).2 = _
    rw [ih, List.length_cons, List.range'_succ]
    rfl

theorem runCategoryCreates_ids (cs : List InsertCategory) (s : MemStorage) :
    (runCategoryCreates s cs).2 = List.range' s.categoryId cs.length := by
  induction cs generalizing s with
  | nil => rfl
  | cons c0 rest ih =>
    show (s.createCategory c0).2.id :: (runCategoryCreates (s.createCategory c0).1 rest).2 = _
    rw [ih, List.length_cons, List.range'_succ]
    rfl

theorem runProductCreates_ids (ps : List (InsertProduct × Nat)) (s : MemStorage) :
    (runProductCreates s ps).2 = List.range' s.productId ps.length := by
  induction ps generalizing s with
  | nil => rfl
  | cons p0 rest ih =>
    show (s.createProduct p0.1 p0.2).2.id
        :: (runProductCreates (s.createProduct p0.1 p0.2).1 rest).2 = _
    rw [ih, List.length_cons, List.range'_succ]
    rfl

theorem runOrderCreates_ids (os : List (InsertOrder × Nat)) (s : MemStorage) :
    (runOrderCreates s os).2 = List.range' s.orderId os.length := by
  induction os generalizing s with
  | nil => rfl
  | cons o0 rest ih =>
    show (s.createOrder o0.1 o0.2).2.id
        :: (runOrderCreates (s.createOrder o0.1 o0.2).1 rest).2 = _
    rw [ih, List.length_cons, List.range'_succ]
    rfl

theorem runOrderItemCreates_ids (ois : List InsertOrderItem) (s : MemStorage) :
    (runOrderItemCreates s ois).2 = List.range' s.orderItemId ois.length := by
  induction ois generalizing s with
  | nil => rfl
  | cons o0 rest ih =>
    show (s.createOrderItem o0).2.id
        :: (runOrderItemCreates (s.createOrderItem o0).1 rest).2 = _
    rw [ih, List.length_cons, List.range'_succ]
    rfl

theorem runNextIds_spec (n : Nat) (db : MongoDb) (name : String) :
    (runNextIds db name n).2 = List.range' (counterValue db.counters name + 1) n := by
  induction n generalizing db with
  | zero => rfl
  | succ m ih =>
    show (db.getNextId name).2 :: (runNextIds (db.getNextId name).1 name m).2 = _
    rw [ih, List.range'_succ]
    congr 1
    · exact counterIncrementAndFetch_val db.counters name
    · congr 1
      rw [show ((db.getNextId name).1).counters
            = (counterIncrementAndFetch db.counters name).1 from rfl,
        counterValue_increment]

/-!  Round-trip helpers for the relational and document backends. -/

theorem pg_roundtrip_helper {α : Type} (docs : List α) (key : α → Nat) (x : α)
    (bound : Nat) (hb : ∀ d ∈ docs, key d < bound) (hx : key x = bound) :
    (docs ++ [x]).find? (fun d => key d == key x) = some x := by
  apply find?_append_fresh
  · intro a ha
    have hne : key a ≠ key x := by
      rw [hx]
      exact Nat.ne_of_lt (hb a ha)
    simp [hne]
  · simp

theorem mongo_roundtrip_helper {α : Type} (docs : List α) (key : α → Nat) (x : α)
    (bound : Nat) (hb : ∀ d ∈ docs, key d ≤ bound) (hx : key x = bound + 1) :
    (docs ++ [x]).find? (fun d => key d == key x) = some x := by
  apply find?_append_fresh
  · intro a ha
    have hne : key a ≠ key x := by
      rw [hx]
      exact Nat.ne_of_lt (Nat.lt_succ_of_le (hb a ha))
    simp [hne]
  · simp

/-!  Concrete states used to witness the claims. -/

/-- A product on sale at 8.00 with list price 10.00. -/
def demoProductOne : Product :=
  { id := 1, name := "A", slug := "a", description := "", price := 10,
    imageUrl := "", stock := 5, categoryId := 1, isOnSale := true,
    salePrice := some 8, isNew := false, rating := 5, reviewCount := 1 }

/-- A product priced 20.00, not on sale. -/
def demoProductTwo : Product :=
  { id := 2, name := "B", slug := "b", description := "", price := 20,
    imageUrl := "", stock := 5, categoryId := 1, isOnSale := false,
    salePrice := none, isNew := false, rating := 5, reviewCount := 1 }

/-- A store where user 7 has the cart [(productId 1, qty 2), (productId 2, qty 1)]. -/
def demoCartState : MemStorage :=
  { users := [], categories := [],
    products := [(1, demoProductOne), (2, demoProductTwo)],
    orders := [], orderItems := [],
    cartItems := [(1, { id := 1, userId := 7, productId := 1, quantity := 2 }),
                  (2, { id := 2, userId := 7, productId := 2, quantity := 1 })],
    userId := 1, categoryId := 1, productId := 3, orderId := 1,
    orderItemId := 1, cartItemId := 3 }

/-- A store where user 7 has one cart line whose product exists and one whose
product (id 99) does not. -/
def demoMissState : MemStorage :=
  { users := [], categories := [],
    products := [(1, demoProductOne)],
    orders := [], orderItems := [],
    cartItems := [(1, { id := 1, userId := 7, productId := 1, quantity := 2 }),
                  (2, { id := 2, userId := 7, productId := 99, quantity := 1 })],
    userId := 1, categoryId := 1, productId := 2, orderId := 1,
    orderItemId := 1, cartItemId := 3 }

/-- C1: the claim says an empty-cart checkout performs no mutation and
creates zero Order records.  The handler, however, creates the Order before
it fetches the cart, so the failing request leaves exactly one new pending
Order behind (order items, cart and the other collections are untouched).
This theorem exhibits the divergence on the code. -/
theorem checkout_empty_cart_creates_order (s : MemStorage) (u : Nat) (total : ℚ)
    (address : String) (now : Nat)
    (hWFo : mapWF s.orders (fun o => o.id) s.orderId)
    (h : s.getCartItems u = []) :
    (checkout s u total address now).2 = CheckoutResult.cartEmpty ∧
    (checkout s u total address now).1.orders
      = s.orders ++ [(s.orderId,
          { id := s.orderId, userId := u, total := total, status := "pending",
            address := address, createdAt := now })] ∧
    (checkout s u total address now).1.orderItems = s.orderItems ∧
    (checkout s u total address now).1.cartItems = s.cartItems ∧
    (checkout s u total address now).1.users = s.users ∧
    (checkout s u total address now).1.categories = s.categories ∧
    (checkout s u total address now).1.products = s.products := by
  have hie : (s.getCartItems u).isEmpty = true := by rw [h]; rfl
  set ins : InsertOrder :=
    { userId := u, total := total, status := "pending", address := address } with hins
  set o : Order :=
    { id := s.orderId, userId := u, total := total, status := "pending",
      address := address, createdAt := now } with ho
  set s1 : MemStorage := (s.createOrder ins now).1 with hs1
  set pm : List (Nat × Product) := buildProductsMap
    (s.getProductsByIds ((s.getCartItems u).map (fun item => item.productId))) with hpm
  set s2 : MemStorage := materializeOrderItems pm s.orderId s1 (s.getCartItems u) with hs2
  set s3 : MemStorage := (s2.clearCart u).1 with hs3
  have hck : checkout s u total address now = (s1, CheckoutResult.cartEmpty) := by
    show (if (s.getCartItems u).isEmpty = true
          then (s1, CheckoutResult.cartEmpty)
          else (s3, CheckoutResult.created o))
        = (s1, CheckoutResult.cartEmpty)
    rw [hie]
    simp
  refine ⟨by rw [hck], ?_, by rw [hck]; rfl, by rw [hck]; rfl, by rw [hck]; rfl,
    by rw [hck]; rfl, by rw [hck]; rfl⟩
  rw [hck]
  show mapSet s.orders s.orderId o = _
  exact mapSet_fresh o (mapHas_eq_false_of_lt hWFo.2.2)

/-- Witness for C1 at a concrete empty-cart store: checkout reports the
empty-cart error yet a new pending Order record exists afterwards. -/
theorem checkout_empty_cart_creates_order_witness :
    mapWF MemStorage.empty.orders (fun o => o.id) MemStorage.empty.orderId ∧
    MemStorage.empty.getCartItems 1 = [] ∧
    ((checkout MemStorage.empty 1 50 "addr" 0).2 = CheckoutResult.cartEmpty ∧
     (checkout MemStorage.empty 1 50 "addr" 0).1.orders
       = MemStorage.empty.orders ++ [(MemStorage.empty.orderId,
           { id := MemStorage.empty.orderId, userId := 1, total := 50,
             status := "pending", address := "addr", createdAt := 0 })] ∧
     (checkout MemStorage.empty 1 50 "addr" 0).1.orderItems = MemStorage.empty.orderItems ∧
     (checkout MemStorage.empty 1 50 "addr" 0).1.cartItems = MemStorage.empty.cartItems ∧
     (checkout MemStorage.empty 1 50 "addr" 0).1.users = MemStorage.empty.users ∧
     (checkout MemStorage.empty 1 50 "addr" 0).1.categories = MemStorage.empty.categories ∧
     (checkout MemStorage.empty 1 50 "addr" 0).1.products = MemStorage.empty.products) :=
  ⟨by decide, by decide,
   checkout_empty_cart_creates_order MemStorage.empty 1 50 "addr" 0 (by decide) (by decide)⟩

/-- C2: over any well-formed store where user `u`'s cart is exactly
[(productId 1, qty 2), (productId 2, qty 1)], product 1 priced 10.00 on sale
at 8.00 and product 2 priced 20.00 not on sale, checkout creates exactly one
Order, exactly two OrderItems with prices 8.00 and 20.00 respectively, and
the user's cart listing is empty afterwards. -/
theorem checkout_two_line_cart (s : MemStorage) (u : Nat) (total : ℚ)
    (address : String) (now : Nat) (c1 c2 : CartItem) (p1 p2 : Product)
    (hWF : s.WF)
    (hcart : s.getCartItems u = [c1, c2])
    (hc1p : c1.productId = 1) (hc1q : c1.quantity = 2)
    (hc2p : c2.productId = 2) (hc2q : c2.quantity = 1)
    (hp1 : s.getProductById 1 = some p1)
    (hp1price : p1.price = 10) (hp1sale : p1.isOnSale = true)
    (hp1sp : p1.salePrice = some 8)
    (hp2 : s.getProductById 2 = some p2)
    (hp2price : p2.price = 20) (hp2sale : p2.isOnSale = false) :
    (checkout s u total address now).2 = CheckoutResult.created
      { id := s.orderId, userId := u, total := total, status := "pending",
        address := address, createdAt := now } ∧
    mapValues (checkout s u total address now).1.orders
      = mapValues s.orders
        ++ [{ id := s.orderId, userId := u, total := total, status := "pending",
              address := address, createdAt := now }] ∧
    (mapValues (checkout s u total address now).1.orderItems).map OrderItem.body
      = (mapValues s.orderItems).map OrderItem.body
        ++ [(s.orderId, 1, 2, 8), (s.orderId, 2, 1, 20)] ∧
    (checkout s u total address now).1.getCartItems u = [] := by
  have hne : ¬ s.getCartItems u = [] := by rw [hcart]; simp
  obtain ⟨e1, e2, e3, e4, _⟩ := checkout_engine s u total address now hWF hne
  refine ⟨e1, e2, ?_, e4⟩
  rw [e3, hcart]
  have hep1 : effectivePrice p1 = 8 := by
    unfold effectivePrice
    rw [hp1sp]
    simp [hp1sale, jsTruthy]
  have hep2 : effectivePrice p2 = 20 := by
    unfold effectivePrice
    cases hsp : p2.salePrice with
    | none => exact hp2price
    | some sp => simp [hp2sale, hp2price]
  simp [List.filterMap_cons, hc1p, hc2p, hp1, hp2, hc1q, hc2q, hep1, hep2]

/-- Witness for C2 at the concrete two-line store. -/
theorem checkout_two_line_cart_witness :
    demoCartState.WF ∧
    demoCartState.getCartItems 7
      = [{ id := 1, userId := 7, productId := 1, quantity := 2 },
         { id := 2, userId := 7, productId := 2, quantity := 1 }] ∧
    ((checkout demoCartState 7 36 "addr" 0).2 = CheckoutResult.created
      { id := 1, userId := 7, total := 36, status := "pending",
        address := "addr", createdAt := 0 } ∧
     mapValues (checkout demoCartState 7 36 "addr" 0).1.orders
       = mapValues demoCartState.orders
         ++ [{ id := 1, userId := 7, total := 36, status := "pending",
               address := "addr", createdAt := 0 }] ∧
     (mapValues (checkout demoCartState 7 36 "addr" 0).1.orderItems).map OrderItem.body
       = (mapValues demoCartState.orderItems).map OrderItem.body
         ++ [(1, 1, 2, 8), (1, 2, 1, 20)] ∧
     (checkout demoCartState 7 36 "addr" 0).1.getCartItems 7 = []) :=
  ⟨by decide, by decide,
   checkout_two_line_cart demoCartState 7 36 "addr" 0
     { id := 1, userId := 7, productId := 1, quantity := 2 }
     { id := 2, userId := 7, productId := 2, quantity := 1 }
     demoProductOne demoProductTwo
     (by decide) (by decide) rfl rfl rfl rfl (by decide) (by decide)
     (by decide) (by decide) (by decide) (by decide) (by decide)⟩

/-- C3: over any well-formed store, a checkout of a non-empty cart in which
some line's product no longer resolves while another line's does still
creates the Order, creates exactly one OrderItem per resolving line and none
for the non-resolving lines, and deletes all of the user's cart items. -/
theorem checkout_missing_product (s : MemStorage) (u : Nat) (total : ℚ)
    (address : String) (now : Nat) (hWF : s.WF)
    (hne : ¬ s.getCartItems u = [])
    (hmiss : ∃ item ∈ s.getCartItems u, s.getProductById item.productId = none)
    (hhit : ∃ item ∈ s.getCartItems u, (s.getProductById item.productId).isSome = true) :
    (checkout s u total address now).2 = CheckoutResult.created
      { id := s.orderId, userId := u, total := total, status := "pending",
        address := address, createdAt := now } ∧
    mapValues (checkout s u total address now).1.orders
      = mapValues s.orders
        ++ [{ id := s.orderId, userId := u, total := total, status := "pending",
              address := address, createdAt := now }] ∧
    (mapValues (checkout s u total address now).1.orderItems).map OrderItem.body
      = (mapValues s.orderItems).map OrderItem.body
        ++ (s.getCartItems u).filterMap (fun item =>
            (s.getProductById item.productId).map (fun product =>
              (s.orderId, item.productId, item.quantity, effectivePrice product))) ∧
    (mapValues (checkout s u total address now).1.orderItems).length
      = (mapValues s.orderItems).length
        + ((s.getCartItems u).filter
            (fun item => (s.getProductById item.productId).isSome)).length ∧
    (checkout s u total address now).1.getCartItems u = [] := by
  obtain ⟨e1, e2, e3, e4, _⟩ := checkout_engine s u total address now hWF hne
  refine ⟨e1, e2, e3, ?_, e4⟩
  have hlen := congrArg List.length e3
  simpa [length_filterMap_map (s.getCartItems u)
    (fun item => s.getProductById item.productId)
    (fun item product =>
      (s.orderId, item.productId, item.quantity, effectivePrice product))] using hlen

/-- Witness for C3 at the concrete store with one resolving and one dangling
cart line. -/
theorem checkout_missing_product_witness :
    demoMissState.WF ∧
    ¬ demoMissState.getCartItems 7 = [] ∧
    (∃ item ∈ demoMissState.getCartItems 7,
      demoMissState.getProductById item.productId = none) ∧
    (∃ item ∈ demoMissState.getCartItems 7,
      (demoMissState.getProductById item.productId).isSome = true) ∧
    ((checkout demoMissState 7 16 "addr" 0).2 = CheckoutResult.created
      { id := 1, userId := 7, total := 16, status := "pending",
        address := "addr", createdAt := 0 } ∧
     mapValues (checkout demoMissState 7 16 "addr" 0).1.orders
       = mapValues demoMissState.orders
         ++ [{ id := 1, userId := 7, total := 16, status := "pending",
               address := "addr", createdAt := 0 }] ∧
     (mapValues (checkout demoMissState 7 16 "addr" 0).1.orderItems).map OrderItem.body
       = (mapValues demoMissState.orderItems).map OrderItem.body
         ++ (demoMissState.getCartItems 7).filterMap (fun item =>
             (demoMissState.getProductById item.productId).map (fun product =>
               (1, item.productId, item.quantity, effectivePrice product))) ∧
     (mapValues (checkout demoMissState 7 16 "addr" 0).1.orderItems).length
       = (mapValues demoMissState.orderItems).length
         + ((demoMissState.getCartItems 7).filter
             (fun item => (demoMissState.getProductById item.productId).isSome)).length ∧
     (checkout demoMissState 7 16 "addr" 0).1.getCartItems 7 = []) :=
  ⟨by decide, by decide, by decide, by decide,
   checkout_missing_product demoMissState 7 16 "addr" 0 (by decide) (by decide)
     (by decide) (by decide)⟩

/-- A product flagged on sale with a sale price of 0 and list price 5.00. -/
def zeroSaleProduct : Product :=
  { id := 1, name := "Z", slug := "z", description := "", price := 5,
    imageUrl := "", stock := 1, categoryId := 1, isOnSale := true,
    salePrice := some 0, isNew := false, rating := 5, reviewCount := 1 }

/-- A store where user 7's cart holds one unit of `zeroSaleProduct`. -/
def zeroSaleState : MemStorage :=
  { users := [], categories := [], products := [(1, zeroSaleProduct)],
    orders := [], orderItems := [],
    cartItems := [(1, { id := 1, userId := 7, productId := 1, quantity := 1 })],
    userId := 1, categoryId := 1, productId := 2, orderId := 1,
    orderItemId := 1, cartItemId := 2 }

/-- C5 counterexample: for a product that is on sale with `salePrice = 0`
(a sale price that is set), the spec's effective price is the sale price 0,
but the OrderItem created at checkout records the list price 5 — JavaScript
truthiness makes `isOnSale && salePrice` treat a zero sale price as absent.
So the claim fails for products whose salePrice is 0. -/
theorem checkout_price_spec_counterexample :
    (mapValues (checkout zeroSaleState 7 5 "a" 0).1.orderItems).map OrderItem.body
      = [(1, 1, 1, 5)] ∧
    specEffectivePrice zeroSaleProduct = 0 ∧
    ¬ ((5 : ℚ) = specEffectivePrice zeroSaleProduct) := by
  refine ⟨by decide, by decide, by decide⟩

/-- C5 (amended): the price recorded on each OrderItem created at checkout
equals the product's effective price as implemented — its sale price if the
product is on sale and a sale price is set *and nonzero*, otherwise its list
price; products whose salePrice is null or 0 fall back to the list price. -/
theorem checkout_price_snapshot (s : MemStorage) (u : Nat) (total : ℚ)
    (address : String) (now : Nat) (hWF : s.WF)
    (hne : ¬ s.getCartItems u = []) :
    (∀ b ∈ (mapValues (checkout s u total address now).1.orderItems).map OrderItem.body,
        b ∈ (mapValues s.orderItems).map OrderItem.body ∨
        ∃ item ∈ s.getCartItems u, ∃ product,
          s.getProductById item.productId = some product ∧
          b = (s.orderId, item.productId, item.quantity, effectivePrice product)) ∧
    (∀ product : Product, product.salePrice = none →
        effectivePrice product = product.price) ∧
    (∀ product : Product, product.salePrice = some 0 →
        effectivePrice product = product.price) ∧
    (∀ product : Product, ∀ sp : ℚ, product.isOnSale = true →
        product.salePrice = some sp → ¬ sp = 0 → effectivePrice product = sp) ∧
    (∀ product : Product, product.isOnSale = false →
        effectivePrice product = product.price) := by
  obtain ⟨_, _, e3, _, _⟩ := checkout_engine s u total address now hWF hne
  refine ⟨?_, ?_, ?_, ?_, ?_⟩
  · intro b hb
    rw [e3] at hb
    rcases List.mem_append.mp hb with hb | hb
    · exact Or.inl hb
    · right
      obtain ⟨item, hitem, heq⟩ := List.mem_filterMap.mp hb
      cases hg : s.getProductById item.productId with
      | none => rw [hg] at heq; simp at heq
      | some product =>
        rw [hg] at heq
        have hbb : b = (s.orderId, item.productId, item.quantity,
            effectivePrice product) := by simpa using heq.symm
        exact ⟨item, hitem, product, hg, hbb⟩
  · intro product hsp
    unfold effectivePrice
    rw [hsp]
  · intro product hsp
    unfold effectivePrice
    rw [hsp]
    simp [jsTruthy]
  · intro product sp hsale hsp hnz
    unfold effectivePrice
    rw [hsp]
    simp [hsale, jsTruthy, hnz]
  · intro product hsale
    unfold effectivePrice
    cases product.salePrice <;> simp [hsale]

/-- Witness for the amended C5 at the concrete zero-sale-price store. -/
theorem checkout_price_snapshot_witness :
    zeroSaleState.WF ∧
    ¬ zeroSaleState.getCartItems 7 = [] ∧
    ((∀ b ∈ (mapValues (checkout zeroSaleState 7 5 "a" 0).1.orderItems).map
          OrderItem.body,
        b ∈ (mapValues zeroSaleState.orderItems).map OrderItem.body ∨
        ∃ item ∈ zeroSaleState.getCartItems 7, ∃ product,
          zeroSaleState.getProductById item.productId = some product ∧
          b = (1, item.productId, item.quantity, effectivePrice product)) ∧
     (∀ product : Product, product.salePrice = none →
        effectivePrice product = product.price) ∧
     (∀ product : Product, product.salePrice = some 0 →
        effectivePrice product = product.price) ∧
     (∀ product : Product, ∀ sp : ℚ, product.isOnSale = true →
        product.salePrice = some sp → ¬ sp = 0 → effectivePrice product = sp) ∧
     (∀ product : Product, product.isOnSale = false →
        effectivePrice product = product.price)) :=
  ⟨by decide, by decide,
   checkout_price_snapshot zeroSaleState 7 5 "a" 0 (by decide) (by decide)⟩

/-!  The three adapters' delete results (claim C4). -/

/-- The empty relational store. -/
def pgEmptyDb : PgDb :=
  { users := [], categories := [], products := [], orders := [],
    orderItems := [], cartItems := [],
    usersSeq := 1, categoriesSeq := 1, productsSeq := 1,
    ordersSeq := 1, orderItemsSeq := 1, cartItemsSeq := 1 }

/-- The empty document store. -/
def mongoEmptyDb : MongoDb :=
  { users := [], categories := [], products := [], orders := [],
    orderItems := [], cartItems := [], counters := [] }

/-- C4 counterexample: with identical (empty) stored state in all three
backends, `deleteCartItem(1)` returns `false` in MemStorage but `true` in
PgStorage, and `clearCart(1)` returns `true` in MemStorage but `false` in
MongoDbStorage — the adapters are not identical in externally observable
results. -/
theorem adapter_divergence_counterexample :
    (MemStorage.empty.deleteCartItem 1).2 = false ∧
    (pgEmptyDb.deleteCartItem 1).2 = true ∧
    ¬ ((MemStorage.empty.deleteCartItem 1).2 = (pgEmptyDb.deleteCartItem 1).2) ∧
    (mongoEmptyDb.deleteCartItem 1).2 = false ∧
    (MemStorage.empty.clearCart 1).2 = true ∧
    (pgEmptyDb.clearCart 1).2 = true ∧
    (mongoEmptyDb.clearCart 1).2 = false ∧
    ¬ ((MemStorage.empty.clearCart 1).2 = (mongoEmptyDb.clearCart 1).2) := by
  decide

/-- C4 (amended): over identical stored cart contents, the three adapters
agree on `deleteCartItem` exactly when a cart item with the id exists and on
`clearCart` exactly when the user has at least one cart item (all three then
return `true`); on absent ids Mem and Mongo report `false` (and agree with
each other) while Pg always returns `true`, and on users without items Mongo's
`clearCart` reports `false` while Mem and Pg return `true`. -/
theorem adapters_agree_when_present (ms : MemStorage) (pg : PgDb) (mdb : MongoDb)
    (rows : List CartItem) (i u : Nat)
    (hmem : mapValues ms.cartItems = rows)
    (hkey : ∀ p ∈ ms.cartItems, p.2.id = p.1)
    (hpg : pg.cartItems = rows) (hmdb : mdb.cartItems = rows) :
    ((∃ c ∈ rows, c.id = i) →
      (ms.deleteCartItem i).2 = true ∧ (pg.deleteCartItem i).2 = true ∧
      (mdb.deleteCartItem i).2 = true) ∧
    ((∃ c ∈ rows, c.userId = u) →
      (ms.clearCart u).2 = true ∧ (pg.clearCart u).2 = true ∧
      (mdb.clearCart u).2 = true) ∧
    ((ms.deleteCartItem i).2 = (mdb.deleteCartItem i).2) ∧
    ((pg.deleteCartItem i).2 = true) ∧
    ((ms.clearCart u).2 = true) ∧ ((pg.clearCart u).2 = true) ∧
    ((mdb.clearCart u).2 = true ↔ ∃ c ∈ rows, c.userId = u) := by
  have hmsd : (ms.deleteCartItem i).2 = rows.any (fun c => c.id == i) := by
    show mapHas ms.cartItems i = rows.any (fun c => c.id == i)
    rw [← hmem, any_values_key hkey]
    rfl
  have hmdbd : (mdb.deleteCartItem i).2 = rows.any (fun c => c.id == i) := by
    show mdb.cartItems.any (fun doc => doc.id == i) = _
    rw [hmdb]
  have hmdbc : (mdb.clearCart u).2 = rows.any (fun c => c.userId == u) := by
    show mdb.cartItems.any (fun doc => doc.userId == u) = _
    rw [hmdb]
  refine ⟨?_, ?_, ?_, rfl, rfl, rfl, ?_⟩
  · intro hex
    have hany : rows.any (fun c => c.id == i) = true := by
      rw [List.any_eq_true]
      obtain ⟨c, hc, hci⟩ := hex
      exact ⟨c, hc, by simp [hci]⟩
    exact ⟨by rw [hmsd, hany], rfl, by rw [hmdbd, hany]⟩
  · intro hex
    have hany : rows.any (fun c => c.userId == u) = true := by
      rw [List.any_eq_true]
      obtain ⟨c, hc, hcu⟩ := hex
      exact ⟨c, hc, by simp [hcu]⟩
    exact ⟨rfl, rfl, by rw [hmdbc, hany]⟩
  · rw [hmsd, hmdbd]
  · rw [hmdbc, List.any_eq_true]
    constructor
    · rintro ⟨c, hc, hcu⟩
      exact ⟨c, hc, by simpa using hcu⟩
    · rintro ⟨c, hc, hcu⟩
      exact ⟨c, hc, by simp [hcu]⟩

/-- A single shared cart row used to witness the amended C4. -/
def demoRow : CartItem := { id := 1, userId := 7, productId := 1, quantity := 1 }

/-- MemStorage holding exactly `demoRow`. -/
def msOneRow : MemStorage :=
  { MemStorage.empty with cartItems := [(1, demoRow)], cartItemId := 2 }

/-- PgStorage state holding exactly `demoRow`. -/
def pgOneRow : PgDb :=
  { pgEmptyDb with cartItems := [demoRow], cartItemsSeq := 2 }

/-- MongoDbStorage state holding exactly `demoRow`. -/
def mongoOneRow : MongoDb :=
  { mongoEmptyDb with cartItems := [demoRow], counters := [("cartItems", 1)] }

/-- Witness for the amended C4: with the same one-row cart contents in all
three backends, the existing id and the owning user give `true` from every
adapter. -/
theorem adapters_agree_when_present_witness :
    mapValues msOneRow.cartItems = [demoRow] ∧
    (∀ p ∈ msOneRow.cartItems, p.2.id = p.1) ∧
    pgOneRow.cartItems = [demoRow] ∧
    mongoOneRow.cartItems = [demoRow] ∧
    (((∃ c ∈ [demoRow], c.id = 1) →
      (msOneRow.deleteCartItem 1).2 = true ∧ (pgOneRow.deleteCartItem 1).2 = true ∧
      (mongoOneRow.deleteCartItem 1).2 = true) ∧
     ((∃ c ∈ [demoRow], c.userId = 7) →
      (msOneRow.clearCart 7).2 = true ∧ (pgOneRow.clearCart 7).2 = true ∧
      (mongoOneRow.clearCart 7).2 = true) ∧
     ((msOneRow.deleteCartItem 1).2 = (mongoOneRow.deleteCartItem 1).2) ∧
     ((pgOneRow.deleteCartItem 1).2 = true) ∧
     ((msOneRow.clearCart 7).2 = true) ∧ ((pgOneRow.clearCart 7).2 = true) ∧
     ((mongoOneRow.clearCart 7).2 = true ↔ ∃ c ∈ [demoRow], c.userId = 7)) :=
  ⟨by decide, by decide, by decide, by decide,
   adapters_agree_when_present msOneRow pgOneRow mongoOneRow [demoRow] 1 7
     (by decide) (by decide) (by decide) (by decide)⟩

/-- C6: for every entity collection of the in-memory backend, successive
create operations issue the consecutive identifiers 1, 2, 3, … from the
constructor state: the ids of any create/delete sequence on the cart-items
collection are exactly `range' 1 (number of creates)` — strictly increasing,
pairwise distinct, never reused even after `deleteCartItem`/`clearCart` —
and likewise for the create sequences of the other five collections. -/
theorem memStorage_ids_strictly_increasing (ops : List CartOp)
    (us : List InsertUser) (cs : List InsertCategory)
    (ps : List (InsertProduct × Nat)) (os : List (InsertOrder × Nat))
    (ois : List InsertOrderItem) :
    (runCartOps MemStorage.empty ops).2 = List.range' 1 (countCreates ops) ∧
    List.Pairwise (· < ·) (runCartOps MemStorage.empty ops).2 ∧
    (runUserCreates MemStorage.empty us).2 = List.range' 1 us.length ∧
    List.Pairwise (· < ·) (runUserCreates MemStorage.empty us).2 ∧
    (runCategoryCreates MemStorage.empty cs).2 = List.range' 1 cs.length ∧
    List.Pairwise (· < ·) (runCategoryCreates MemStorage.empty cs).2 ∧
    (runProductCreates MemStorage.empty ps).2 = List.range' 1 ps.length ∧
    List.Pairwise (· < ·) (runProductCreates MemStorage.empty ps).2 ∧
    (runOrderCreates MemStorage.empty os).2 = List.range' 1 os.length ∧
    List.Pairwise (· < ·) (runOrderCreates MemStorage.empty os).2 ∧
    (runOrderItemCreates MemStorage.empty ois).2 = List.range' 1 ois.length ∧
    List.Pairwise (· < ·) (runOrderItemCreates MemStorage.empty ois).2 := by
  have h1 := runCartOps_ids ops MemStorage.empty
  have h2 := runUserCreates_ids us MemStorage.empty
  have h3 := runCategoryCreates_ids cs MemStorage.empty
  have h4 := runProductCreates_ids ps MemStorage.empty
  have h5 := runOrderCreates_ids os MemStorage.empty
  have h6 := runOrderItemCreates_ids ois MemStorage.empty
  refine ⟨h1, ?_, h2, ?_, h3, ?_, h4, ?_, h5, ?_, h6, ?_⟩ <;>
    first
      | (rw [h1]; exact List.pairwise_lt_range' _ _)
      | (rw [h2]; exact List.pairwise_lt_range' _ _)
      | (rw [h3]; exact List.pairwise_lt_range' _ _)
      | (rw [h4]; exact List.pairwise_lt_range' _ _)
      | (rw [h5]; exact List.pairwise_lt_range' _ _)
      | (rw [h6]; exact List.pairwise_lt_range' _ _)

/-- C7: if every cart insertion goes through the add-to-cart handler's
check-then-create protocol, then from any well-formed state already
satisfying the at-most-one-CartItem-per-(userId, productId) invariant, the
invariant holds after any sequence of such requests; and `getCartItem` for a
pair right after `createCartItem` (when no prior row existed) returns the
newly created row. -/
theorem check_then_create_protocol (s : MemStorage)
    (hWF : mapWF s.cartItems (fun i => i.id) s.cartItemId)
    (hU : uniquePairs s) :
    (∀ reqs : List (Nat × Nat × Nat), uniquePairs (runAddToCart s reqs)) ∧
    (∀ u p q : Nat, s.getCartItem u p = none →
      ((s.createCartItem { userId := u, productId := p, quantity := q }).1).getCartItem u p
        = some (s.createCartItem { userId := u, productId := p, quantity := q }).2) := by
  constructor
  · intro reqs
    exact runAddToCart_invariant reqs s hWF hU
  · intro u p q hnone
    exact getCartItem_after_create s u p q hWF.2.2 hnone

/-- Witness for C7 at the one-row store: the invariant survives a request
sequence that hits both the update and the create path, and the
create-then-get round trip returns the new row. -/
theorem check_then_create_protocol_witness :
    mapWF msOneRow.cartItems (fun i => i.id) msOneRow.cartItemId ∧
    uniquePairs msOneRow ∧
    ((∀ reqs : List (Nat × Nat × Nat), uniquePairs (runAddToCart msOneRow reqs)) ∧
     (∀ u p q : Nat, msOneRow.getCartItem u p = none →
      ((msOneRow.createCartItem
          { userId := u, productId := p, quantity := q }).1).getCartItem u p
        = some (msOneRow.createCartItem
            { userId := u, productId := p, quantity := q }).2)) :=
  ⟨by decide, by decide,
   check_then_create_protocol msOneRow (by decide) (by decide)⟩

theorem filter_userId_listing (rows : List CartItem) (u : Nat) :
    ((rows.filter (fun r => r.userId != u)).filter (fun r => r.userId == u) = []) ∧
    (∀ v, v ≠ u →
      (rows.filter (fun r => r.userId != u)).filter (fun r => r.userId == v)
        = rows.filter (fun r => r.userId == v)) := by
  constructor
  · rw [List.filter_filter, List.filter_eq_nil_iff]
    intro a _
    by_cases ha : a.userId = u <;> simp [ha]
  · intro v hv
    rw [List.filter_filter]
    apply List.filter_congr
    intro a _
    by_cases ha : a.userId = v
    · have hau : a.userId ≠ u := by rw [ha]; exact hv
      simp [ha, hau, hv]
    · simp [ha]

/-- C9: in every backend adapter, `clearCart(u)` empties user `u`'s cart
listing, leaves every cart item of every other user unchanged, and modifies
no other entity collection: for MemStorage (deleting each collected id from
the map), for PgStorage (delete where userId), and for MongoDbStorage
(`deleteMany({userId\x7d)`).  The returned values are each adapter's own:
`true` for Mem and Pg, whether anything was deleted for Mongo. -/
theorem clearCart_frame (s : MemStorage) (pg : PgDb) (mdb : MongoDb) (u : Nat)
    (hnd : (s.cartItems.map Prod.fst).Nodup)
    (hkey : ∀ p ∈ s.cartItems, p.2.id = p.1) :
    ((s.clearCart u).1).getCartItems u = [] ∧
    (∀ v, v ≠ u → ((s.clearCart u).1).getCartItems v = s.getCartItems v) ∧
    ((s.clearCart u).1).cartItems = s.cartItems.filter (fun p => p.2.userId != u) ∧
    ((s.clearCart u).1).users = s.users ∧
    ((s.clearCart u).1).categories = s.categories ∧
    ((s.clearCart u).1).products = s.products ∧
    ((s.clearCart u).1).orders = s.orders ∧
    ((s.clearCart u).1).orderItems = s.orderItems ∧
    (s.clearCart u).2 = true ∧
    ((pg.clearCart u).1).getCartItems u = [] ∧
    (∀ v, v ≠ u → ((pg.clearCart u).1).getCartItems v = pg.getCartItems v) ∧
    ((pg.clearCart u).1).cartItems = pg.cartItems.filter (fun r => r.userId != u) ∧
    ((pg.clearCart u).1).users = pg.users ∧
    ((pg.clearCart u).1).categories = pg.categories ∧
    ((pg.clearCart u).1).products = pg.products ∧
    ((pg.clearCart u).1).orders = pg.orders ∧
    ((pg.clearCart u).1).orderItems = pg.orderItems ∧
    (pg.clearCart u).2 = true ∧
    ((mdb.clearCart u).1).getCartItems u = [] ∧
    (∀ v, v ≠ u → ((mdb.clearCart u).1).getCartItems v = mdb.getCartItems v) ∧
    ((mdb.clearCart u).1).cartItems
      = mdb.cartItems.filter (fun doc => doc.userId != u) ∧
    ((mdb.clearCart u).1).users = mdb.users ∧
    ((mdb.clearCart u).1).categories = mdb.categories ∧
    ((mdb.clearCart u).1).products = mdb.products ∧
    ((mdb.clearCart u).1).orders = mdb.orders ∧
    ((mdb.clearCart u).1).orderItems = mdb.orderItems ∧
    (mdb.clearCart u).2 = mdb.cartItems.any (fun doc => doc.userId == u) := by
  have hclear := clearCart_cartItems s u hnd hkey
  have hpgl := filter_userId_listing pg.cartItems u
  have hmdbl := filter_userId_listing mdb.cartItems u
  refine ⟨?_, ?_, hclear, rfl, rfl, rfl, rfl, rfl, rfl,
    hpgl.1, ?_, rfl, rfl, rfl, rfl, rfl, rfl, rfl,
    hmdbl.1, ?_, rfl, rfl, rfl, rfl, rfl, rfl, rfl⟩
  · show (mapValues ((s.clearCart u).1).cartItems).filter
        (fun item => item.userId == u) = []
    rw [hclear, mapValues_filter_snd s.cartItems (fun x : CartItem => x.userId != u),
      List.filter_filter, List.filter_eq_nil_iff]
    intro a _
    by_cases ha : a.userId = u <;> simp [ha]
  · intro v hv
    show (mapValues ((s.clearCart u).1).cartItems).filter
        (fun item => item.userId == v) = s.getCartItems v
    rw [hclear, mapValues_filter_snd s.cartItems (fun x : CartItem => x.userId != u),
      List.filter_filter]
    apply List.filter_congr
    intro a _
    by_cases ha : a.userId = v
    · have hau : a.userId ≠ u := by rw [ha]; exact hv
      simp [ha, hau, hv]
    · simp [ha]
  · intro v hv
    exact hpgl.2 v hv
  · intro v hv
    exact hmdbl.2 v hv

/-- Witness for C9 at concrete one-row stores for user 7 across all three
backends. -/
theorem clearCart_frame_witness :
    (msOneRow.cartItems.map Prod.fst).Nodup ∧
    (∀ p ∈ msOneRow.cartItems, p.2.id = p.1) ∧
    (((msOneRow.clearCart 7).1).getCartItems 7 = [] ∧
     (∀ v, v ≠ 7 → ((msOneRow.clearCart 7).1).getCartItems v = msOneRow.getCartItems v) ∧
     ((msOneRow.clearCart 7).1).cartItems
       = msOneRow.cartItems.filter (fun p => p.2.userId != 7) ∧
     ((msOneRow.clearCart 7).1).users = msOneRow.users ∧
     ((msOneRow.clearCart 7).1).categories = msOneRow.categories ∧
     ((msOneRow.clearCart 7).1).products = msOneRow.products ∧
     ((msOneRow.clearCart 7).1).orders = msOneRow.orders ∧
     ((msOneRow.clearCart 7).1).orderItems = msOneRow.orderItems ∧
     (msOneRow.clearCart 7).2 = true ∧
     ((pgOneRow.clearCart 7).1).getCartItems 7 = [] ∧
     (∀ v, v ≠ 7 → ((pgOneRow.clearCart 7).1).getCartItems v = pgOneRow.getCartItems v) ∧
     ((pgOneRow.clearCart 7).1).cartItems
       = pgOneRow.cartItems.filter (fun r => r.userId != 7) ∧
     ((pgOneRow.clearCart 7).1).users = pgOneRow.users ∧
     ((pgOneRow.clearCart 7).1).categories = pgOneRow.categories ∧
     ((pgOneRow.clearCart 7).1).products = pgOneRow.products ∧
     ((pgOneRow.clearCart 7).1).orders = pgOneRow.orders ∧
     ((pgOneRow.clearCart 7).1).orderItems = pgOneRow.orderItems ∧
     (pgOneRow.clearCart 7).2 = true ∧
     ((mongoOneRow.clearCart 7).1).getCartItems 7 = [] ∧
     (∀ v, v ≠ 7 →
       ((mongoOneRow.clearCart 7).1).getCartItems v = mongoOneRow.getCartItems v) ∧
     ((mongoOneRow.clearCart 7).1).cartItems
       = mongoOneRow.cartItems.filter (fun doc => doc.userId != 7) ∧
     ((mongoOneRow.clearCart 7).1).users = mongoOneRow.users ∧
     ((mongoOneRow.clearCart 7).1).categories = mongoOneRow.categories ∧
     ((mongoOneRow.clearCart 7).1).products = mongoOneRow.products ∧
     ((mongoOneRow.clearCart 7).1).orders = mongoOneRow.orders ∧
     ((mongoOneRow.clearCart 7).1).orderItems = mongoOneRow.orderItems ∧
     (mongoOneRow.clearCart 7).2
       = mongoOneRow.cartItems.any (fun doc => doc.userId == 7)) :=
  ⟨by decide, by decide,
   clearCart_frame msOneRow pgOneRow mongoOneRow 7 (by decide) (by decide)⟩

/-- C10: the ids handed out by `n` successive `getNextId` allocations for a
collection are exactly the consecutive integers `counter+1, …, counter+n` —
pairwise distinct with no gaps.  Each allocation is a single atomic
`findOneAndUpdate` increment-and-fetch against the counters document, so any
schedule of `n` concurrent callers executes exactly such a sequence. -/
theorem concurrent_nextId_distinct_consecutive (db : MongoDb) (name : String)
    (n : Nat) :
    (runNextIds db name n).2
      = List.range' (counterValue db.counters name + 1) n ∧
    (runNextIds db name n).2.Nodup ∧
    List.Chain' (fun a b => b = a + 1) (runNextIds db name n).2 := by
  have h := runNextIds_spec n db name
  refine ⟨h, ?_, ?_⟩
  · rw [h]
    exact List.nodup_range' _ _
  · rw [h]
    exact chain'_consecutive_range' _ _

/-- C8: in each backend, for each entity that has a get-by-id operation
(User, Category, Product, Order — OrderItem and CartItem expose no getById
in the Storage Port), `create` followed by `getById` on the id of the
returned record returns a record equal to the created one.  MemStorage needs
no side condition; the relational and document backends need only their
id-generation well-formedness. -/
theorem create_getById_roundtrip (ms : MemStorage) (pg : PgDb) (mdb : MongoDb)
    (hpg : pg.WF) (hmdb : mdb.WF)
    (iu : InsertUser) (ic : InsertCategory) (ip : InsertProduct) (r : Nat)
    (io : InsertOrder) (now : Nat) :
    ((ms.createUser iu).1.getUser (ms.createUser iu).2.id
      = some (ms.createUser iu).2) ∧
    ((ms.createCategory ic).1.getCategoryById (ms.createCategory ic).2.id
      = some (ms.createCategory ic).2) ∧
    ((ms.createProduct ip r).1.getProductById (ms.createProduct ip r).2.id
      = some (ms.createProduct ip r).2) ∧
    ((ms.createOrder io now).1.getOrderById (ms.createOrder io now).2.id
      = some (ms.createOrder io now).2) ∧
    ((pg.createUser iu).1.getUser (pg.createUser iu).2.id
      = some (pg.createUser iu).2) ∧
    ((pg.createCategory ic).1.getCategoryById (pg.createCategory ic).2.id
      = some (pg.createCategory ic).2) ∧
    ((pg.createProduct ip r).1.getProductById (pg.createProduct ip r).2.id
      = some (pg.createProduct ip r).2) ∧
    ((pg.createOrder io now).1.getOrderById (pg.createOrder io now).2.id
      = some (pg.createOrder io now).2) ∧
    ((mdb.createUser iu).1.getUser (mdb.createUser iu).2.id
      = some (mdb.createUser iu).2) ∧
    ((mdb.createCategory ic).1.getCategoryById (mdb.createCategory ic).2.id
      = some (mdb.createCategory ic).2) ∧
    ((mdb.createProduct ip r).1.getProductById (mdb.createProduct ip r).2.id
      = some (mdb.createProduct ip r).2) ∧
    ((mdb.createOrder io now).1.getOrderById (mdb.createOrder io now).2.id
      = some (mdb.createOrder io now).2) := by
  obtain ⟨hpgu, hpgc, hpgp, hpgo, _, _⟩ := hpg
  obtain ⟨hmu, hmc, hmp, hmo, _, _⟩ := hmdb
  refine ⟨?_, ?_, ?_, ?_, ?_, ?_, ?_, ?_, ?_, ?_, ?_, ?_⟩
  · exact mapGet_mapSet_self ms.users ms.userId (ms.createUser iu).2
  · exact mapGet_mapSet_self ms.categories ms.categoryId (ms.createCategory ic).2
  · exact mapGet_mapSet_self ms.products ms.productId (ms.createProduct ip r).2
  · exact mapGet_mapSet_self ms.orders ms.orderId (ms.createOrder io now).2
  · exact pg_roundtrip_helper pg.users (fun d => d.id) (pg.createUser iu).2
      pg.usersSeq hpgu rfl
  · exact pg_roundtrip_helper pg.categories (fun d => d.id) (pg.createCategory ic).2
      pg.categoriesSeq hpgc rfl
  · exact pg_roundtrip_helper pg.products (fun d => d.id) (pg.createProduct ip r).2
      pg.productsSeq hpgp rfl
  · exact pg_roundtrip_helper pg.orders (fun d => d.id) (pg.createOrder io now).2
      pg.ordersSeq hpgo rfl
  · exact mongo_roundtrip_helper mdb.users (fun d => d.id) (mdb.createUser iu).2
      (counterValue mdb.counters "users") hmu
      (counterIncrementAndFetch_val mdb.counters "users")
  · exact mongo_roundtrip_helper mdb.categories (fun d => d.id)
      (mdb.createCategory ic).2 (counterValue mdb.counters "categories") hmc
      (counterIncrementAndFetch_val mdb.counters "categories")
  · exact mongo_roundtrip_helper mdb.products (fun d => d.id)
      (mdb.createProduct ip r).2 (counterValue mdb.counters "products") hmp
      (counterIncrementAndFetch_val mdb.counters "products")
  · exact mongo_roundtrip_helper mdb.orders (fun d => d.id)
      (mdb.createOrder io now).2 (counterValue mdb.counters "orders") hmo
      (counterIncrementAndFetch_val mdb.counters "orders")

/-- Creation payloads used to witness C8. -/
def demoInsertUser : InsertUser :=
  { username := "u", email := "e", password := "pw", fullName := "f", address := "a" }

/-- Category payload for the C8 witness. -/
def demoInsertCategory : InsertCategory := { name := "c", slug := "c", imageUrl := "" }

/-- Product payload for the C8 witness. -/
def demoInsertProduct : InsertProduct :=
  { name := "p", slug := "p", description := "", price := 1, imageUrl := "",
    stock := 1, categoryId := 1, isOnSale := false, salePrice := none, isNew := false }

/-- Order payload for the C8 witness. -/
def demoInsertOrder : InsertOrder :=
  { userId := 1, total := 1, status := "pending", address := "a" }

/-- Witness for C8 on the empty stores with concrete payloads. -/
theorem create_getById_roundtrip_witness :
    pgEmptyDb.WF ∧ mongoEmptyDb.WF ∧
    (((MemStorage.empty.createUser demoInsertUser).1.getUser
        (MemStorage.empty.createUser demoInsertUser).2.id
      = some (MemStorage.empty.createUser demoInsertUser).2) ∧
     ((MemStorage.empty.createCategory demoInsertCategory).1.getCategoryById
        (MemStorage.empty.createCategory demoInsertCategory).2.id
      = some (MemStorage.empty.createCategory demoInsertCategory).2) ∧
     ((MemStorage.empty.createProduct demoInsertProduct 3).1.getProductById
        (MemStorage.empty.createProduct demoInsertProduct 3).2.id
      = some (MemStorage.empty.createProduct demoInsertProduct 3).2) ∧
     ((MemStorage.empty.createOrder demoInsertOrder 0).1.getOrderById
        (MemStorage.empty.createOrder demoInsertOrder 0).2.id
      = some (MemStorage.empty.createOrder demoInsertOrder 0).2) ∧
     ((pgEmptyDb.createUser demoInsertUser).1.getUser
        (pgEmptyDb.createUser demoInsertUser).2.id
      = some (pgEmptyDb.createUser demoInsertUser).2) ∧
     ((pgEmptyDb.createCategory demoInsertCategory).1.getCategoryById
        (pgEmptyDb.createCategory demoInsertCategory).2.id
      = some (pgEmptyDb.createCategory demoInsertCategory).2) ∧
     ((pgEmptyDb.createProduct demoInsertProduct 3).1.getProductById
        (pgEmptyDb.createProduct demoInsertProduct 3).2.id
      = some (pgEmptyDb.createProduct demoInsertProduct 3).2) ∧
     ((pgEmptyDb.createOrder demoInsertOrder 0).1.getOrderById
        (pgEmptyDb.createOrder demoInsertOrder 0).2.id
      = some (pgEmptyDb.createOrder demoInsertOrder 0).2) ∧
     ((mongoEmptyDb.createUser demoInsertUser).1.getUser
        (mongoEmptyDb.createUser demoInsertUser).2.id
      = some (mongoEmptyDb.createUser demoInsertUser).2) ∧
     ((mongoEmptyDb.createCategory demoInsertCategory).1.getCategoryById
        (mongoEmptyDb.createCategory demoInsertCategory).2.id
      = some (mongoEmptyDb.createCategory demoInsertCategory).2) ∧
     ((mongoEmptyDb.createProduct demoInsertProduct 3).1.getProductById
        (mongoEmptyDb.createProduct demoInsertProduct 3).2.id
      = some (mongoEmptyDb.createProduct demoInsertProduct 3).2) ∧
     ((mongoEmptyDb.createOrder demoInsertOrder 0).1.getOrderById
        (mongoEmptyDb.createOrder demoInsertOrder 0).2.id
      = some (mongoEmptyDb.createOrder demoInsertOrder 0).2)) :=
  ⟨by decide, by decide,
   create_getById_roundtrip MemStorage.empty pgEmptyDb mongoEmptyDb
     (by decide) (by decide) demoInsertUser demoInsertCategory demoInsertProduct 3
     demoInsertOrder 0⟩

end Shop
